import Mathlib

/-!
Verification development for the token tracker system.

This file gives a shallow embedding, in Lean 4, of the core pipeline of the
repository (call-data classifier, chain poller delivery, profile resolver
stats stage, tier classifier, creator persistence, and the notification
dispatcher in `processTokenCreation`), and proves or refutes the frozen
claims about it.

Conventions used throughout:
* machine integers are `Nat` with explicit `% 2 ^ w` where the width matters;
* byte strings (call data) are `List Nat` of byte values;
* JavaScript `number` arithmetic on wei amounts (divisions by `1e18`) is
  modelled over `ℚ`;
* fallible external calls (HTTP posts, profile fetches) are modelled by an
  explicit environment record carrying their outcomes, and side effects are
  collected in an explicit effect list;
* the persistent store (Supabase) is modelled as in-memory tables threaded
  through the functions; persistence itself is assumed reliable (database
  error branches of the source, which merely log and return null, are not
  exercised by any claim).
-/

set_option maxHeartbeats 1000000

/-! ## ABI encoding and decoding (src/lib/blockchain.ts, decodeTokenCreationData)

`decodeTokenCreationData` delegates to viem's `decodeAbiParameters`.  We model
the standard ABI byte-level encoding of the two parameter schemas it uses
(format A under selector 0x0b8c6fec and format B under selector 0x30f51a46)
and the corresponding reader, operating on call-data bytes. -/

/-- Big-endian byte encoding of a natural number in `k` bytes
(the value is taken modulo `256 ^ k`). -/
def beBytes : Nat → Nat → List Nat
  | _, 0 => []
  | v, k + 1 => beBytes (v / 256) k ++ [v % 256]

/-- Interpret a big-endian byte list as a natural number. -/
def fromBe (l : List Nat) : Nat := l.foldl (fun a b => a * 256 + b) 0

/-- A 32-byte ABI word. -/
def wordBytes (v : Nat) : List Nat := beBytes v 32

/-- Length of a byte string padded up to a multiple of 32. -/
def padLen (n : Nat) : Nat := ((n + 31) / 32) * 32

/-- Right-pad a byte string with zeros to a multiple of 32 bytes. -/
def padRight32 (l : List Nat) : List Nat :=
  l ++ List.replicate (padLen l.length - l.length) 0

/-- Read the 32-byte word of `data` starting at byte offset `ofs`. -/
def readWord (data : List Nat) (ofs : Nat) : Nat :=
  fromBe ((data.drop ofs).take 32)

/-- Read a dynamic `string`/`bytes` value whose header word sits at `ofs`. -/
def readString (data : List Nat) (ofs : Nat) : List Nat :=
  (data.drop (ofs + 32)).take (readWord data ofs)

/-- Tail encoding of a dynamic string: a length word followed by the padded
bytes. -/
def strTail (s : List Nat) : List Nat := wordBytes s.length ++ padRight32 s

/-- Canonical ABI encoding of format A
`(string name, string symbol, uint256 totalSupply, uint256 taxPercentage)`:
four head words (two tail offsets and the two static words) followed by the
two string tails. -/
def encodeA (name symbol : List Nat) (totalSupply taxPercentage : Nat) : List Nat :=
  wordBytes 128 ++
    (wordBytes (160 + padLen name.length) ++
      (wordBytes totalSupply ++
        (wordBytes taxPercentage ++ (strTail name ++ strTail symbol))))

/-- Canonical ABI encoding of format B
`(uint16, uint8, uint128, uint8, address creator, uint256, string name,
string symbol, uint256 totalSupply)`: nine head words followed by the two
string tails. -/
def encodeB (p1 p2 p3 p4 creator p6 : Nat) (name symbol : List Nat)
    (totalSupply : Nat) : List Nat :=
  wordBytes p1 ++
    (wordBytes p2 ++
      (wordBytes p3 ++
        (wordBytes p4 ++
          (wordBytes creator ++
            (wordBytes p6 ++
              (wordBytes 288 ++
                (wordBytes (320 + padLen name.length) ++
                  (wordBytes totalSupply ++ (strTail name ++ strTail symbol)))))))))

/-- Model of viem's `decodeAbiParameters` for the format-A schema: the two
strings are read through their offset words, the two `uint256` are read in
place. -/
def decodeA (data : List Nat) : List Nat × List Nat × Nat × Nat :=
  (readString data (readWord data 0),
   readString data (readWord data 32),
   readWord data 64,
   readWord data 96)

/-- Model of viem's `decodeAbiParameters` for the format-B schema, restricted
to the four components the source consumes: the `address creator` at word 4
(low 160 bits), the two strings through their offset words at words 6 and 7,
and the `uint256 totalSupply` at word 8. -/
def decodeB (data : List Nat) : Nat × List Nat × List Nat × Nat :=
  (readWord data 128 % 2 ^ 160,
   readString data (readWord data 192),
   readString data (readWord data 224),
   readWord data 256)

/-- Decoded token metadata as produced by `decodeTokenCreationData`
(src/lib/blockchain.ts): name and symbol as byte strings, the total supply
rendered as a decimal string by `.toString()`, and for format B the decoded
creator address. -/
structure TokenMetadata where
  name : List Nat
  symbol : List Nat
  totalSupply : String
  creator : Option Nat
  deriving DecidableEq, Repr

/-- Embedding of `decodeTokenCreationData(methodId, input)`
(src/lib/blockchain.ts lines 166-216).  `input` is the raw call data as
bytes, selector included; the source's `input.slice(10)` (dropping `0x` and
8 hex digits) is the byte-level `input.drop 4`. -/
def decodeTokenCreationData (methodId : String) (input : List Nat) : Option TokenMetadata :=
  if methodId = "0x0b8c6fec" then
    let d := decodeA (input.drop 4)
    some ⟨d.1, d.2.1, Nat.repr d.2.2.1, none⟩
  else if methodId = "0x30f51a46" then
    let d := decodeB (input.drop 4)
    some ⟨d.2.1, d.2.2.1, Nat.repr d.2.2.2, some d.1⟩
  else
    none

/-- The byte values of an ASCII string (for ASCII text this coincides with
its UTF-8 encoding, which is what the call data carries). -/
def asciiBytes (s : String) : List Nat := s.toList.map Char.toNat

/-- The four selector bytes of format A, `0x0b8c6fec`. -/
def selectorA : List Nat := [0x0b, 0x8c, 0x6f, 0xec]

/-- The four selector bytes of format B, `0x30f51a46`. -/
def selectorB : List Nat := [0x30, 0xf5, 0x1a, 0x46]

/-! ## String helpers

`String.toLower`, `String.take` and `String.includes` counterparts defined by
structural recursion on the character list, so that concrete instances reduce
inside the kernel. -/

/-- Lower-case a string character-wise (JavaScript `toLowerCase` on the ASCII
identifiers, addresses and symbols this system handles). -/
def lowerString (s : String) : String := String.mk (s.toList.map Char.toLower)

/-- First `n` characters of a string (JavaScript `slice(0, n)`). -/
def strTake (s : String) (n : Nat) : String := String.mk (s.toList.take n)

/-- Does the character list start with `pat`? -/
def startsWithB : List Char → List Char → Bool
  | [], _ => true
  | _ :: _, [] => false
  | a :: as, b :: bs => a = b && startsWithB as bs

/-- Does the character list contain `pat` as a contiguous sublist? -/
def hasSubList (pat : List Char) : List Char → Bool
  | [] => pat.isEmpty
  | b :: bs => startsWithB pat (b :: bs) || hasSubList pat bs

/-- JavaScript `s.includes(pat)`. -/
def containsSub (s pat : String) : Bool := hasSubList pat.toList s.toList

/-! ## Transaction classification (src/lib/blockchain.ts) -/

/-- The `TransactionType` union of src/lib/blockchain.ts. -/
inductive TransactionType
  | TOKEN_CREATION
  | BUY
  | SELL
  | ADD_LIQUIDITY
  | REMOVE_LIQUIDITY
  | APPROVE
  | TRANSFER
  | UNKNOWN
  deriving DecidableEq, Repr

/-- An entry of the `METHOD_SIGNATURES` lookup table. -/
structure MethodInfo where
  name : String
  type : TransactionType
  description : String
  deriving DecidableEq, Repr

/-- The `METHOD_SIGNATURES` table of src/lib/blockchain.ts (lines 77-157),
mapping known 4-byte selectors to name, kind and description. -/
def METHOD_SIGNATURES : List (String × MethodInfo) :=
  [("0x0b8c6fec", ⟨"createToken", .TOKEN_CREATION, "Create new token"⟩),
   ("0x30f51a46", ⟨"createToken", .TOKEN_CREATION, "Create new token"⟩),
   ("0x5a46f06c", ⟨"createLP", .ADD_LIQUIDITY, "Add initial liquidity"⟩),
   ("0xe8e33700", ⟨"addLiquidity", .ADD_LIQUIDITY, "Add liquidity to pool"⟩),
   ("0xbaa2abde", ⟨"removeLiquidity", .REMOVE_LIQUIDITY, "Remove liquidity from pool"⟩),
   ("0xa6f2ae3a", ⟨"buy", .BUY, "Buy tokens with AVAX"⟩),
   ("0x7ff36ab5", ⟨"sell", .SELL, "Sell tokens for AVAX"⟩),
   ("0x38ed1739", ⟨"swapExactTokensForETH", .SELL, "Swap tokens for AVAX"⟩),
   ("0x7c025200", ⟨"swapETHForExactTokens", .BUY, "Swap AVAX for tokens"⟩),
   ("0x095ea7b3", ⟨"approve", .APPROVE, "Approve token spending"⟩),
   ("0xa9059cbb", ⟨"transfer", .TRANSFER, "Transfer tokens"⟩),
   ("0x23b872dd", ⟨"transferFrom", .TRANSFER, "Transfer tokens from address"⟩),
   ("0x2e1a7d4d", ⟨"withdraw", .SELL, "Withdraw AVAX"⟩),
   ("0xd0e30db0", ⟨"deposit", .BUY, "Deposit AVAX"⟩)]

/-- Table lookup `METHOD_SIGNATURES[methodId]`. -/
def lookupMethodSignature (methodId : String) : Option MethodInfo :=
  (METHOD_SIGNATURES.find? (fun p => p.1 = methodId)).map (fun p => p.2)

/-- Result record of `determineTransactionType`. -/
structure TxTypeInfo where
  type : TransactionType
  description : String
  method : String
  deriving DecidableEq, Repr

/-- Embedding of `determineTransactionType(methodId, value)`
(src/lib/blockchain.ts lines 249-294).  The transaction `value` is the wei
amount as a natural number; the source receives it as a decimal string and
computes `Number(value) / 1e18 > 0`, modelled here over `ℚ`. -/
def determineTransactionType (methodId : String) (value : Nat) : TxTypeInfo :=
  match lookupMethodSignature methodId with
  | some info => ⟨info.type, info.description, info.name⟩
  | none =>
    if containsSub (lowerString methodId) "create" || containsSub (lowerString methodId) "token" then
      ⟨.TOKEN_CREATION, "Possible token creation", "unknown_create"⟩
    else if (value : ℚ) / 10 ^ 18 > 0 then
      ⟨.BUY, "Buy transaction (AVAX sent)", "unknown_buy"⟩
    else
      ⟨.UNKNOWN, "Unknown transaction type", if methodId = "" then "unknown" else methodId⟩

/-! ## Steady-state polling tick (src/lib/blockchain.ts, monitorContract)

The per-block transaction scan of `monitorContract` (lines 346-394) and the
delivery of `notifyCallbacks` (lines 296-315).  A raw chain transaction is a
record of the fields the scan consumes; delivery to the subscriber list is
modelled as the list of (subscriber, event) pairs scheduled by
`notifyCallbacks` (the source schedules them on the next cooperative turn
with `setTimeout(..., 0)`). -/

/-- A transaction as it appears in a fetched block. -/
structure RawTx where
  hash : String
  fromAddr : String
  toAddr : Option String
  input : String
  value : Nat
  deriving DecidableEq, Repr

/-- The classified event (`ContractTransaction` in the source) that the
poller constructs, restricted to the fields the monitor populates from the
classifier. -/
structure ClassifiedEvent where
  hash : String
  fromAddr : String
  toAddr : Option String
  value : Nat
  method : String
  methodId : String
  transactionType : TransactionType
  isTokenCreation : Bool
  description : String
  deriving DecidableEq, Repr

/-- The tracked contract address (src/lib/blockchain.ts line 7). -/
def ARENA_CONTRACT_ADDRESS : String := "0x8315f1eb449Dd4B779495C3A0b05e5d194446c6e"

/-- The `ContractTransaction` object that `monitorContract` builds for a raw
transaction (src/lib/blockchain.ts lines 360-374). -/
def mkMonitorEvent (tx : RawTx) : ClassifiedEvent :=
  let methodId := strTake tx.input 10
  let info := determineTransactionType methodId tx.value
  ⟨tx.hash, tx.fromAddr, tx.toAddr, tx.value, info.method, methodId, info.type,
    info.type = .TOKEN_CREATION, info.description⟩

/-- The events that one steady-state tick emits for the transactions of a
fetched block: the per-transaction body of `monitorContract`
(src/lib/blockchain.ts lines 346-394).  Transactions not addressed to the
tracked contract are ignored; classified transactions other than
`TOKEN_CREATION` are skipped by the `continue` at line 352. -/
def monitorBlockEvents (txs : List RawTx) : List ClassifiedEvent :=
  txs.filterMap fun tx =>
    if tx.toAddr.map lowerString = some (lowerString ARENA_CONTRACT_ADDRESS) then
      let info := determineTransactionType (strTake tx.input 10) tx.value
      if info.type ≠ .TOKEN_CREATION then none
      else some (mkMonitorEvent tx)
    else none

/-- Delivery of `notifyCallbacks` over a tick: each emitted event is handed
to every subscriber callback (subscribers are identified by index). -/
def notifyDeliveries (subs : List Nat) (events : List ClassifiedEvent) :
    List (Nat × ClassifiedEvent) :=
  events.flatMap fun e => subs.map fun s => (s, e)

/-! ## Profile resolver stats stage (src/lib/arena-socials.ts, fetchArenaUserProfile)

The champion-badge determination of stage 3 (lines 216-371).  Badge type
codes arrive from the external service either as JSON numbers or as strings,
which the source compares with a strict triple check and a loose
`String(badgeType) === "19"` check. -/

/-- A JSON scalar as it may appear in the `badgeType` field. -/
inductive JsVal
  | num (n : Int)
  | str (s : String)
  deriving DecidableEq, Repr

/-- Strip leading and trailing whitespace from a character list. -/
def trimChars (cs : List Char) : List Char :=
  ((cs.dropWhile Char.isWhitespace).reverse.dropWhile Char.isWhitespace).reverse

/-- Parse a decimal digit string to a natural number, or fail. -/
def digitsToNat : List Char → Option Nat
  | [] => none
  | cs =>
    if cs.all Char.isDigit then
      some (cs.foldl (fun a c => a * 10 + (c.toNat - 48)) 0)
    else none

/-- JavaScript `Number(v)` restricted to integral results: a number converts
to itself, a string is trimmed and parsed as an optionally signed decimal
integer (the empty string converts to 0; anything unparsable is `NaN`,
modelled as `none`). -/
def jsToNumber : JsVal → Option Int
  | .num n => some n
  | .str s =>
    let t := trimChars s.toList
    if t.isEmpty then some 0
    else
      match t with
      | '-' :: rest => (digitsToNat rest).map (fun n => -(n : Int))
      | cs => (digitsToNat cs).map (fun n => (n : Int))

/-- JavaScript `String(v)`. -/
def jsToString : JsVal → String
  | .num n => toString n
  | .str s => s

/-- The `ArenaBadge` record of src/lib/arena-socials.ts; `badgeType` is kept
as a JSON scalar because the service may deliver it as number or string. -/
structure ArenaBadge where
  id : Nat
  userId : String
  badgeType : JsVal
  order : Nat
  deriving DecidableEq, Repr

/-- The `ArenaUserProfile` record, restricted to the fields the verified
claims depend on (the remaining fields - display name, bio, avatar, socials,
counts, volume - are presentation data carried unchanged).  `keyPrice` is the
ticket price in wei as parsed by `Number(...)`; absent fields are `none`. -/
structure ArenaUserProfile where
  username : Option String
  followerCount : Option Nat
  keyPrice : Option Nat
  badges : Option (List ArenaBadge)
  isArenaChampion : Option Bool
  deriving DecidableEq, Repr

/-- The body of the stats response that the champion determination consumes:
the optional badge array (`data.badges` when it is an array, otherwise
`none`). -/
structure StatsData where
  badges : Option (List ArenaBadge)
  deriving DecidableEq, Repr

/-- Outcome of the stage-3 stats request: a 2xx body, a non-2xx status
(e.g. 403 permission-denied), or a thrown fetch error. -/
inductive StatsOutcome
  | ok (data : StatsData)
  | httpError (status : Nat)
  | fetchError
  deriving DecidableEq, Repr

/-- The strict champion-badge check of line 301:
`badge.badgeType === 19 || badge.badgeType === "19" || Number(badge.badgeType) === 19`. -/
def championBadgeStrict (b : ArenaBadge) : Bool :=
  b.badgeType = JsVal.num 19 || b.badgeType = JsVal.str "19" || jsToNumber b.badgeType = some 19

/-- The loose champion-badge check of line 305: `String(badge.badgeType) === "19"`. -/
def championBadgeLoose (b : ArenaBadge) : Bool :=
  jsToString b.badgeType = "19"

/-- The stats-stage update of the profile's champion flag
(src/lib/arena-socials.ts lines 234-364), applied to the partial profile
built by stages 1-2: on a 2xx body with a badge array the badge list is
stored and the champion flag recomputed; on a missing badge array, a non-2xx
status, or a fetch error the champion flag is explicitly set to `false`. -/
def fetchStatsStage (profile : ArenaUserProfile) (outcome : StatsOutcome) : ArenaUserProfile :=
  match outcome with
  | .ok data =>
    match data.badges with
    | some bs =>
      { profile with
        badges := some bs,
        isArenaChampion :=
          some ((bs.find? championBadgeStrict).isSome || (bs.find? championBadgeLoose).isSome) }
    | none => { profile with isArenaChampion := some false }
  | .httpError _ => { profile with isArenaChampion := some false }
  | .fetchError => { profile with isArenaChampion := some false }

/-! ## Tier classification (src/lib/database-simple.ts lines 290-300) -/

/-- The post-type label computed for a creation event. -/
inductive PostType
  | champion
  | heavyHitter
  | regular
  deriving DecidableEq, Repr

/-- `const followers = arenaProfile.followerCount || 0`. -/
def followersOf (p : ArenaUserProfile) : Nat := p.followerCount.getD 0

/-- `const ticketPrice = arenaProfile.keyPrice ? Number(arenaProfile.keyPrice) / 1e18 : 0`,
modelled over `ℚ`. -/
def ticketPriceOf (p : ArenaUserProfile) : ℚ :=
  match p.keyPrice with
  | some k => (k : ℚ) / 10 ^ 18
  | none => 0

/-- The tier determination of src/lib/database-simple.ts lines 290-300:
champion when the profile's champion flag is set, else heavy-hitter when
followers reach 5000 or the ticket price reaches 1.5 whole tokens, else
regular. -/
def postTypeOf (p : ArenaUserProfile) : PostType :=
  if p.isArenaChampion.getD false then .champion
  else if followersOf p ≥ 5000 ∨ ticketPriceOf p ≥ 3 / 2 then .heavyHitter
  else .regular

/-- The string label of a post type as logged and cached by the source. -/
def postTypeLabel : PostType → String
  | .champion => "champion"
  | .heavyHitter => "heavy-hitter"
  | .regular => "regular"

/-! ## Persistence model (src/lib/database-simple.ts, src/lib/database.ts)

The Supabase tables the dispatcher touches, as in-memory lists.  Persistence
is modelled as reliable: the source's error branches log and return null
without further effect, and no claim exercises them. -/

/-- A `contract_tickers` entry of a creator row. -/
structure ContractTicker where
  symbol : String
  name : Option String
  address : Option String
  transaction_hash : Option String
  created_at : Nat
  deriving DecidableEq, Repr

/-- A row of the `creators` table. -/
structure CreatorRow where
  id : Nat
  wallet_address : String
  contracts_created : Nat
  contract_tickers : List ContractTicker
  deriving DecidableEq, Repr

/-- A row of the `contract_transactions` table, restricted to the columns
`processTokenCreation` reads and writes. -/
structure TxRow where
  id : Nat
  hash : String
  posted_to_arena : Bool
  posted_to_discord : Bool
  deriving DecidableEq, Repr

/-- The database: an id counter and the two tables. -/
structure DB where
  nextId : Nat
  txRows : List TxRow
  creators : List CreatorRow
  deriving DecidableEq, Repr

/-- `getCreator(walletAddress)` (src/lib/database-simple.ts lines 174-194):
the creators row whose wallet address matches exactly. -/
def getCreator (db : DB) (walletAddress : String) : Option CreatorRow :=
  db.creators.find? (fun c => c.wallet_address = walletAddress)

/-- The `select id, posted_to_arena, posted_to_discord ... eq(hash)` lookup
of src/lib/database-simple.ts lines 221-225. -/
def findTxRow (db : DB) (hash : String) : Option TxRow :=
  db.txRows.find? (fun r => r.hash = hash)

/-- Embedding of `addCreatorContract` (src/lib/database-simple.ts lines
89-172): insert a fresh creator with one ticker, or increment the contract
count and append the ticker unless one with the same symbol is already
present.  Returns the updated database and the creator row id (the source
returns null only on a database error, which is not modelled). -/
def addCreatorContract (db : DB) (now : Nat) (walletAddress symbol : String)
    (name address transactionHash : Option String) : DB × Nat :=
  match getCreator db walletAddress with
  | none =>
    let row : CreatorRow :=
      ⟨db.nextId, walletAddress, 1, [⟨symbol, name, address, transactionHash, now⟩]⟩
    ({ db with nextId := db.nextId + 1, creators := db.creators ++ [row] }, row.id)
  | some creator =>
    let tickerExists := creator.contract_tickers.any (fun t => t.symbol = symbol)
    let newTickers :=
      if tickerExists then creator.contract_tickers
      else creator.contract_tickers ++ [⟨symbol, name, address, transactionHash, now⟩]
    let db' :=
      { db with
        creators := db.creators.map (fun c =>
          if c.wallet_address = walletAddress then
            { c with contracts_created := c.contracts_created + 1, contract_tickers := newTickers }
          else c) }
    (db', creator.id)

/-- `saveContractTransaction` (src/lib/database.ts), restricted to the upsert
on `hash`: an existing row keeps its id and post flags, a fresh row starts
with both flags clear.  Returns the row id. -/
def saveContractTransaction (db : DB) (hash : String) : DB × Nat :=
  match findTxRow db hash with
  | some row => (db, row.id)
  | none =>
    ({ db with nextId := db.nextId + 1, txRows := db.txRows ++ [⟨db.nextId, hash, false, false⟩] },
     db.nextId)

/-- The `update({posted_to_arena: true}).eq("id", transactionId)` write of
src/lib/database-simple.ts lines 319-324. -/
def setArenaFlag (db : DB) (id : Nat) : DB :=
  { db with txRows := db.txRows.map (fun r =>
      if r.id = id then { r with posted_to_arena := true } else r) }

/-- The `update({posted_to_discord: true}).eq("id", transactionId)` write of
src/lib/database-simple.ts lines 354-359. -/
def setDiscordFlag (db : DB) (id : Nat) : DB :=
  { db with txRows := db.txRows.map (fun r =>
      if r.id = id then { r with posted_to_discord := true } else r) }

/-! ## Post caches and dispatcher (src/lib/database-simple.ts) -/

/-- The idempotency key of a post-cache entry.  The source builds the string
`"arena-post-" + hash + "-" + wallet.toLowerCase() + "-" + symbol.toLowerCase()`
(resp. `"discord-post-..."`); since the two channels live in separate caches
the channel prefix carries no information and the key is modelled as the
triple itself. -/
structure PostCacheKey where
  hash : String
  wallet : String
  symbol : String
  deriving DecidableEq, Repr

/-- A post-cache entry. -/
structure PostCacheEntry where
  posted : Bool
  timestamp : Nat
  postType : String
  deriving DecidableEq, Repr

/-- `createArenaPostCacheKey` (src/lib/database-simple.ts lines 32-34). -/
def createArenaPostCacheKey (transactionHash walletAddress symbol : String) : PostCacheKey :=
  ⟨transactionHash, lowerString walletAddress, lowerString symbol⟩

/-- `createDiscordPostCacheKey` (src/lib/database-simple.ts lines 37-39). -/
def createDiscordPostCacheKey (transactionHash walletAddress symbol : String) : PostCacheKey :=
  ⟨transactionHash, lowerString walletAddress, lowerString symbol⟩

/-- A post cache (`Map` in the source) as an association list; `Map.set`
overwrites, modelled by erase-then-prepend. -/
abbrev PostCache := List (PostCacheKey × PostCacheEntry)

/-- `Map.get`. -/
def cacheLookup (cache : PostCache) (k : PostCacheKey) : Option PostCacheEntry :=
  (cache.find? (fun p => p.1 = k)).map (fun p => p.2)

/-- `Map.set`. -/
def cacheSet (cache : PostCache) (k : PostCacheKey) (e : PostCacheEntry) : PostCache :=
  (k, e) :: cache.filter (fun p => p.1 ≠ k)

/-- `CACHE_DURATION` (src/lib/database-simple.ts line 29): 24 hours in
milliseconds. -/
def CACHE_DURATION : Nat := 24 * 60 * 60 * 1000

/-- `markArenaPostAsSent` / `markDiscordPostAsSent` (src/lib/database-simple.ts
lines 69-87): store a posted entry under the key with the current time. -/
def markPostAsSent (cache : PostCache) (k : PostCacheKey) (postType : String)
    (now : Nat) : PostCache :=
  cacheSet cache k ⟨true, now, postType⟩

/-- `wasArenaPostAlreadySent` / `wasDiscordPostAlreadySent`
(src/lib/database-simple.ts lines 41-67): report the `posted` flag of a
fresh cache entry, deleting and denying an expired one.  Returns the answer
and the possibly-updated cache. -/
def wasPostAlreadySent (cache : PostCache) (k : PostCacheKey) (now : Nat) :
    Bool × PostCache :=
  match cacheLookup cache k with
  | none => (false, cache)
  | some e =>
    if now - e.timestamp < CACHE_DURATION then (e.posted, cache)
    else (false, cache.filter (fun p => p.1 ≠ k))

/-- The string-level token metadata consumed by `processTokenCreation`
(`transaction.tokenMetadata` fields `name`, `symbol`, `tokenAddress`). -/
structure TokenMeta where
  name : Option String
  symbol : Option String
  tokenAddress : Option String
  deriving DecidableEq, Repr

/-- The slice of a `ContractTransaction` that `processTokenCreation`
consumes. -/
structure ProcessTx where
  hash : String
  fromAddr : String
  isTokenCreation : Bool
  tokenMetadata : Option TokenMeta
  tokenAddress : Option String
  deriving DecidableEq, Repr

/-- The combined mutable state threaded through the dispatcher: the database
and the two in-process post caches. -/
structure SysState where
  db : DB
  arenaPostCache : PostCache
  discordPostCache : PostCache
  deriving DecidableEq, Repr

/-- The outcomes of the external calls `processTokenCreation` makes:
the Arena profile returned by `fetchArenaUserProfile` for an address, and
whether `postToArenaTimeline` / `postToDiscordWithRetry` succeed. -/
structure Env where
  profileFor : String → Option ArenaUserProfile
  arenaPostOk : Bool
  discordPostOk : Bool

/-- The observable outbound calls of one `processTokenCreation` run, in
order: the profile fetch, the Arena timeline post, the Discord post. -/
inductive Effect
  | fetchProfile (addr : String)
  | arenaPost (username symbol : String)
  | discordPost (username symbol : String)
  deriving DecidableEq, Repr

/-- The Arena branch of the dispatcher (src/lib/database-simple.ts lines
305-337): champions and heavy-hitters attempt an Arena post unless the flag
lookup said already-sent; on success both the in-process cache entry and the
persisted flag are marked; regular creators are cache-marked without any
outbound call. -/
def dispatchArena (env : Env) (now : Nat) (st : SysState) (key : PostCacheKey)
    (tid : Option Nat) (pt : PostType) (username symbol : String)
    (arenaAlreadySent : Bool) : SysState × List Effect :=
  if (pt = PostType.champion ∨ pt = PostType.heavyHitter) ∧ arenaAlreadySent = false then
    if env.arenaPostOk then
      let st1 := { st with arenaPostCache := markPostAsSent st.arenaPostCache key (postTypeLabel pt) now }
      let st2 :=
        match tid with
        | some i => { st1 with db := setArenaFlag st1.db i }
        | none => st1
      (st2, [Effect.arenaPost username symbol])
    else (st, [Effect.arenaPost username symbol])
  else if pt = PostType.regular then
    ({ st with arenaPostCache := markPostAsSent st.arenaPostCache key (postTypeLabel pt) now }, [])
  else (st, [])

/-- The Discord branch of the dispatcher (src/lib/database-simple.ts lines
339-366): attempted for every tier unless the flag lookup said already-sent;
on success both the cache entry and the persisted flag are marked. -/
def dispatchDiscord (env : Env) (now : Nat) (st : SysState) (key : PostCacheKey)
    (tid : Option Nat) (pt : PostType) (username symbol : String)
    (discordAlreadySent : Bool) : SysState × List Effect :=
  if discordAlreadySent = false then
    if env.discordPostOk then
      let st1 := { st with discordPostCache := markPostAsSent st.discordPostCache key (postTypeLabel pt) now }
      let st2 :=
        match tid with
        | some i => { st1 with db := setDiscordFlag st1.db i }
        | none => st1
      (st2, [Effect.discordPost username symbol])
    else (st, [Effect.discordPost username symbol])
  else (st, [])

/-- The enrichment-and-dispatch phase of `processTokenCreation`
(src/lib/database-simple.ts lines 263-375): when the updated creator has more
than one contract, fetch the Arena profile; with a usable profile (truthy
username) compute the tier and run the two channel branches. -/
def enrichAndDispatch (env : Env) (now : Nat) (st : SysState) (key : PostCacheKey)
    (tid : Option Nat) (aSent dSent : Bool) (fromAddr symbol : String)
    (cc : Nat) : SysState × List Effect :=
  if cc > 1 then
    match env.profileFor fromAddr with
    | some p =>
      match p.username with
      | some u =>
        if u ≠ "" then
          let pt := postTypeOf p
          let r1 := dispatchArena env now st key tid pt u symbol aSent
          let r2 := dispatchDiscord env now r1.1 key tid pt u symbol dSent
          (r2.1, Effect.fetchProfile fromAddr :: (r1.2 ++ r2.2))
        else (st, [Effect.fetchProfile fromAddr])
      | none => (st, [Effect.fetchProfile fromAddr])
    | none => (st, [Effect.fetchProfile fromAddr])
  else (st, [])

/-- The post-status lookup phase of `processTokenCreation`
(src/lib/database-simple.ts lines 217-240): read the transaction row if it
exists (marking the in-process caches from the persisted flags and keeping
its id), otherwise save the transaction.  Returns the updated state, the
transaction row id, and the two already-sent flags. -/
def lookupPostStatus (now : Nat) (st : SysState) (key : PostCacheKey) (hash : String) :
    SysState × Option Nat × Bool × Bool :=
  match findTxRow st.db hash with
  | some row =>
    let stA :=
      if row.posted_to_arena then
        { st with arenaPostCache := markPostAsSent st.arenaPostCache key "db" now }
      else st
    let stB :=
      if row.posted_to_discord then
        { stA with discordPostCache := markPostAsSent stA.discordPostCache key "db" now }
      else stA
    (stB, some row.id, row.posted_to_arena, row.posted_to_discord)
  | none =>
    let r := saveContractTransaction st.db hash
    ({ st with db := r.1 }, some r.2, false, false)

/-- The remainder of `processTokenCreation` after the post-status lookup
(src/lib/database-simple.ts lines 242-377): record the creation on the
creator; when both channels were already posted stop there, otherwise read
the updated creator and run enrichment and dispatch. -/
def processAfterLookup (env : Env) (now : Nat) (st1 : SysState) (key : PostCacheKey)
    (tid : Option Nat) (aSent dSent : Bool) (tx : ProcessTx) (md : TokenMeta)
    (symbol : String) : SysState × List Effect × Option Nat :=
  let tokenAddr := md.tokenAddress.orElse (fun _ => tx.tokenAddress)
  let add := addCreatorContract st1.db now tx.fromAddr symbol md.name tokenAddr (some tx.hash)
  let st2 := { st1 with db := add.1 }
  if aSent && dSent then (st2, [], some add.2)
  else
    let cc :=
      match getCreator st2.db tx.fromAddr with
      | some c => c.contracts_created
      | none => 0
    let r := enrichAndDispatch env now st2 key tid aSent dSent tx.fromAddr symbol cc
    (r.1, r.2, some add.2)

/-- Embedding of `processTokenCreation(transaction)` (src/lib/database-simple.ts
lines 197-382).  Returns the updated state, the outbound calls made, and the
creator row id (the source's return value, `null` when the event is not a
usable token creation).  The database is modelled as reliable, so the
source's error-logging branches (fetch errors, null ids) do not arise. -/
def processTokenCreation (env : Env) (now : Nat) (st : SysState) (tx : ProcessTx) :
    SysState × List Effect × Option Nat :=
  if tx.isTokenCreation = false then (st, [], none)
  else
    match tx.tokenMetadata with
    | none => (st, [], none)
    | some md =>
      match md.symbol with
      | none => (st, [], none)
      | some symbol =>
        let key := createArenaPostCacheKey tx.hash tx.fromAddr symbol
        let step := lookupPostStatus now st key tx.hash
        processAfterLookup env now step.1 key step.2.1 step.2.2.1 step.2.2.2 tx md symbol

/-- Is an effect an Arena post? -/
def isArenaPostE : Effect → Bool
  | .arenaPost _ _ => true
  | _ => false

/-- Is an effect a Discord post? -/
def isDiscordPostE : Effect → Bool
  | .discordPost _ _ => true
  | _ => false

/-- Number of Arena outbound calls in an effect list. -/
def countArena (l : List Effect) : Nat := (l.filter isArenaPostE).length

/-- Number of Discord outbound calls in an effect list. -/
def countDiscord (l : List Effect) : Nat := (l.filter isDiscordPostE).length

/-- The real-time monitor's handling of one token-creation event
(src/lib/blockchain.ts lines 378-392 together with `notifyCallbacks`, lines
296-315): the first notification runs `processTokenCreation` without a
profile, then `fetchCreatorProfile(tx.from)` is called unconditionally (line
383), and its resolution re-notifies (line 387), running
`processTokenCreation` a second time on the same transaction.
`fetchCreatorProfile` catches its own errors and always resolves (lines
240-246), so the re-notification always happens.  The monitor's own profile
fetch is the middle `fetchProfile` effect. -/
def monitorProcessEvent (env : Env) (now : Nat) (st : SysState) (tx : ProcessTx) :
    SysState × List Effect :=
  let r1 := processTokenCreation env now st tx
  let r2 := processTokenCreation env now r1.1 tx
  (r2.1, r1.2.1 ++ [Effect.fetchProfile tx.fromAddr] ++ r2.2.1)

/-- One `addCreatorContract` invocation's arguments, for reasoning about
operation sequences. -/
structure AddOp where
  wallet : String
  symbol : String
  name : Option String
  address : Option String
  txHash : Option String
  deriving DecidableEq, Repr

/-- Run a sequence of `addCreatorContract` operations against a database. -/
def runAddOps (db : DB) (now : Nat) (ops : List AddOp) : DB :=
  ops.foldl (fun d op => (addCreatorContract d now op.wallet op.symbol op.name op.address op.txHash).1) db

/-- A concrete dispatcher scenario used by witnesses: the creator already
has one recorded contract, no transaction row exists yet, the profile
resolves to a heavy-hitter (6000 followers), and both channels accept the
post. -/
def witEnv : Env :=
  ⟨fun _ => some ⟨some "alice", some 6000, none, none, some false⟩, true, true⟩

/-- Initial state for the witness scenario. -/
def witSt : SysState :=
  ⟨⟨5, [], [⟨0, "0xW", 1, [⟨"OLD", none, none, none, 0⟩]⟩]⟩, [], []⟩

/-- The creation event of the witness scenario. -/
def witTx : ProcessTx :=
  ⟨"0xh", "0xW", true, some ⟨some "Tok", some "TKN", none⟩, none⟩

/-! ## Theorems -/

/-! ### ABI helper lemmas -/

theorem length_beBytes (v k : Nat) : (beBytes v k).length = k := by
  induction k generalizing v with
  | zero => simp [beBytes]
  | succ k ih => simp [beBytes, ih]

theorem length_wordBytes (v : Nat) : (wordBytes v).length = 32 := by
  simp [wordBytes, length_beBytes]

theorem le_padLen (n : Nat) : n ≤ padLen n := by
  unfold padLen
  omega

theorem length_padRight32 (l : List Nat) : (padRight32 l).length = padLen l.length := by
  have h := le_padLen l.length
  simp [padRight32]
  omega

theorem length_strTail (s : List Nat) : (strTail s).length = 32 + padLen s.length := by
  simp [strTail, length_wordBytes, length_padRight32]

theorem fromBe_append_singleton (l : List Nat) (x : Nat) :
    fromBe (l ++ [x]) = fromBe l * 256 + x := by
  simp [fromBe, List.foldl_append]

theorem fromBe_beBytes (k v : Nat) : fromBe (beBytes v k) = v % 256 ^ k := by
  induction k generalizing v with
  | zero => simp [beBytes, fromBe, Nat.mod_one]
  | succ k ih =>
      have h : v % 256 ^ (k + 1) = v % 256 + 256 * (v / 256 % 256 ^ k) := by
        rw [pow_succ, mul_comm, Nat.mod_mul]
      rw [beBytes, fromBe_append_singleton, ih, h]
      ring

theorem drop_append_plus (l₁ l₂ : List Nat) (n : Nat) :
    (l₁ ++ l₂).drop (l₁.length + n) = l₂.drop n := by
  induction l₁ with
  | nil => simp
  | cons a l ih => simp [Nat.succ_add, ih]

theorem drop_append_len (l₁ l₂ : List Nat) : (l₁ ++ l₂).drop l₁.length = l₂ := by
  have h := drop_append_plus l₁ l₂ 0
  rw [Nat.add_zero] at h
  rw [h, List.drop_zero]

theorem take_append_len (l₁ l₂ : List Nat) : (l₁ ++ l₂).take l₁.length = l₁ := by
  induction l₁ with
  | nil => simp
  | cons a l ih => simp [ih]

theorem readWord_append (pre rest : List Nat) (k : Nat) :
    readWord (pre ++ rest) (pre.length + k) = readWord rest k := by
  unfold readWord
  rw [drop_append_plus]

theorem readString_append (pre rest : List Nat) (k : Nat) :
    readString (pre ++ rest) (pre.length + k) = readString rest k := by
  unfold readString
  rw [show pre.length + k + 32 = pre.length + (k + 32) by omega, drop_append_plus,
    readWord_append]

theorem readWord_word (v : Nat) (rest : List Nat) :
    readWord (wordBytes v ++ rest) 0 = v % 2 ^ 256 := by
  unfold readWord
  rw [List.drop_zero, show (32 : Nat) = (wordBytes v).length from (length_wordBytes v).symm,
    take_append_len]
  rw [wordBytes, fromBe_beBytes]
  norm_num

theorem readWord_skip32 (v : Nat) (rest : List Nat) (k : Nat) :
    readWord (wordBytes v ++ rest) (32 + k) = readWord rest k := by
  rw [show (32 : Nat) + k = (wordBytes v).length + k by rw [length_wordBytes],
    readWord_append]

theorem readString_skip32 (v : Nat) (rest : List Nat) (k : Nat) :
    readString (wordBytes v ++ rest) (32 + k) = readString rest k := by
  rw [show (32 : Nat) + k = (wordBytes v).length + k by rw [length_wordBytes],
    readString_append]

theorem readString_strTail (s rest : List Nat) (h : s.length < 2 ^ 256) :
    readString (strTail s ++ rest) 0 = s := by
  unfold strTail
  rw [List.append_assoc]
  unfold readString
  rw [readWord_word, Nat.mod_eq_of_lt h]
  rw [show (0 : Nat) + 32 = (wordBytes s.length).length by simp [length_wordBytes]]
  rw [drop_append_len]
  unfold padRight32
  rw [List.append_assoc]
  exact take_append_len s _

theorem readWord_skip (v : Nat) (rest : List Nat) (ofs : Nat) (h : 32 ≤ ofs) :
    readWord (wordBytes v ++ rest) ofs = readWord rest (ofs - 32) := by
  obtain ⟨k, rfl⟩ : ∃ k, ofs = 32 + k := ⟨ofs - 32, by omega⟩
  rw [readWord_skip32]
  congr 1
  omega

theorem readString_skip (v : Nat) (rest : List Nat) (ofs : Nat) (h : 32 ≤ ofs) :
    readString (wordBytes v ++ rest) ofs = readString rest (ofs - 32) := by
  obtain ⟨k, rfl⟩ : ∃ k, ofs = 32 + k := ⟨ofs - 32, by omega⟩
  rw [readString_skip32]
  congr 1
  omega

theorem decodeA_encodeA (name symbol : List Nat) (sup tax : Nat)
    (hn : 160 + padLen name.length < 2 ^ 256) (hs : symbol.length < 2 ^ 256)
    (hsup : sup < 2 ^ 256) (htax : tax < 2 ^ 256) :
    decodeA (encodeA name symbol sup tax) = (name, symbol, sup, tax) := by
  have hname : name.length < 2 ^ 256 := by
    have := le_padLen name.length
    omega
  have happ : readString (strTail symbol) 0 = symbol := by
    simpa using readString_strTail symbol [] hs
  have h0 : readWord (encodeA name symbol sup tax) 0 = 128 := by
    unfold encodeA
    rw [readWord_word, Nat.mod_eq_of_lt (by norm_num)]
  have h32 : readWord (encodeA name symbol sup tax) 32 = 160 + padLen name.length := by
    unfold encodeA
    rw [readWord_skip _ _ _ (by norm_num)]
    norm_num
    rw [readWord_word, Nat.mod_eq_of_lt hn]
  have h64 : readWord (encodeA name symbol sup tax) 64 = sup := by
    unfold encodeA
    rw [readWord_skip _ _ _ (by norm_num)]
    norm_num
    rw [readWord_skip _ _ _ (by norm_num)]
    norm_num
    rw [readWord_word, Nat.mod_eq_of_lt hsup]
  have h96 : readWord (encodeA name symbol sup tax) 96 = tax := by
    unfold encodeA
    rw [readWord_skip _ _ _ (by norm_num)]
    norm_num
    rw [readWord_skip _ _ _ (by norm_num)]
    norm_num
    rw [readWord_skip _ _ _ (by norm_num)]
    norm_num
    rw [readWord_word, Nat.mod_eq_of_lt htax]
  have hstr0 : readString (encodeA name symbol sup tax) 128 = name := by
    unfold encodeA
    rw [readString_skip _ _ _ (by norm_num)]
    norm_num
    rw [readString_skip _ _ _ (by norm_num)]
    norm_num
    rw [readString_skip _ _ _ (by norm_num)]
    norm_num
    rw [readString_skip _ _ _ (by norm_num)]
    norm_num
    rw [readString_strTail _ _ hname]
  have hstr1 : readString (encodeA name symbol sup tax) (160 + padLen name.length) = symbol := by
    unfold encodeA
    rw [readString_skip _ _ _ (by omega)]
    rw [readString_skip _ _ _ (by omega)]
    rw [readString_skip _ _ _ (by omega)]
    rw [readString_skip _ _ _ (by omega)]
    rw [show 160 + padLen name.length - 32 - 32 - 32 - 32 = (strTail name).length + 0 by
      simp [length_strTail]
      omega]
    rw [readString_append, happ]
  simp only [decodeA, h0, h32, hstr0, hstr1, h64, h96]

theorem decodeB_encodeB (p1 p2 p3 p4 creator p6 : Nat) (name symbol : List Nat) (sup : Nat)
    (hc : creator < 2 ^ 160) (hn : 320 + padLen name.length < 2 ^ 256)
    (hs : symbol.length < 2 ^ 256) (hsup : sup < 2 ^ 256) :
    decodeB (encodeB p1 p2 p3 p4 creator p6 name symbol sup) = (creator, name, symbol, sup) := by
  have hname : name.length < 2 ^ 256 := by
    have := le_padLen name.length
    omega
  have hc' : creator < 2 ^ 256 := lt_of_lt_of_le hc (by norm_num)
  have happ : readString (strTail symbol) 0 = symbol := by
    simpa using readString_strTail symbol [] hs
  have h128 : readWord (encodeB p1 p2 p3 p4 creator p6 name symbol sup) 128 = creator := by
    unfold encodeB
    rw [readWord_skip _ _ _ (by norm_num)]
    norm_num
    rw [readWord_skip _ _ _ (by norm_num)]
    norm_num
    rw [readWord_skip _ _ _ (by norm_num)]
    norm_num
    rw [readWord_skip _ _ _ (by norm_num)]
    norm_num
    rw [readWord_word, Nat.mod_eq_of_lt hc']
  have h192 : readWord (encodeB p1 p2 p3 p4 creator p6 name symbol sup) 192 = 288 := by
    unfold encodeB
    rw [readWord_skip _ _ _ (by norm_num)]
    norm_num
    rw [readWord_skip _ _ _ (by norm_num)]
    norm_num
    rw [readWord_skip _ _ _ (by norm_num)]
    norm_num
    rw [readWord_skip _ _ _ (by norm_num)]
    norm_num
    rw [readWord_skip _ _ _ (by norm_num)]
    norm_num
    rw [readWord_skip _ _ _ (by norm_num)]
    norm_num
    rw [readWord_word, Nat.mod_eq_of_lt (by norm_num)]
  have h224 : readWord (encodeB p1 p2 p3 p4 creator p6 name symbol sup) 224 =
      320 + padLen name.length := by
    unfold encodeB
    rw [readWord_skip _ _ _ (by norm_num)]
    norm_num
    rw [readWord_skip _ _ _ (by norm_num)]
    norm_num
    rw [readWord_skip _ _ _ (by norm_num)]
    norm_num
    rw [readWord_skip _ _ _ (by norm_num)]
    norm_num
    rw [readWord_skip _ _ _ (by norm_num)]
    norm_num
    rw [readWord_skip _ _ _ (by norm_num)]
    norm_num
    rw [readWord_skip _ _ _ (by norm_num)]
    norm_num
    rw [readWord_word, Nat.mod_eq_of_lt hn]
  have h256 : readWord (encodeB p1 p2 p3 p4 creator p6 name symbol sup) 256 = sup := by
    unfold encodeB
    rw [readWord_skip _ _ _ (by norm_num)]
    norm_num
    rw [readWord_skip _ _ _ (by norm_num)]
    norm_num
    rw [readWord_skip _ _ _ (by norm_num)]
    norm_num
    rw [readWord_skip _ _ _ (by norm_num)]
    norm_num
    rw [readWord_skip _ _ _ (by norm_num)]
    norm_num
    rw [readWord_skip _ _ _ (by norm_num)]
    norm_num
    rw [readWord_skip _ _ _ (by norm_num)]
    norm_num
    rw [readWord_skip _ _ _ (by norm_num)]
    norm_num
    rw [readWord_word, Nat.mod_eq_of_lt hsup]
  have hstr0 : readString (encodeB p1 p2 p3 p4 creator p6 name symbol sup) 288 = name := by
    unfold encodeB
    rw [readString_skip _ _ _ (by norm_num)]
    norm_num
    rw [readString_skip _ _ _ (by norm_num)]
    norm_num
    rw [readString_skip _ _ _ (by norm_num)]
    norm_num
    rw [readString_skip _ _ _ (by norm_num)]
    norm_num
    rw [readString_skip _ _ _ (by norm_num)]
    norm_num
    rw [readString_skip _ _ _ (by norm_num)]
    norm_num
    rw [readString_skip _ _ _ (by norm_num)]
    norm_num
    rw [readString_skip _ _ _ (by norm_num)]
    norm_num
    rw [readString_skip _ _ _ (by norm_num)]
    norm_num
    rw [readString_strTail _ _ hname]
  have hstr1 : readString (encodeB p1 p2 p3 p4 creator p6 name symbol sup)
      (320 + padLen name.length) = symbol := by
    unfold encodeB
    rw [readString_skip _ _ _ (by omega)]
    rw [readString_skip _ _ _ (by omega)]
    rw [readString_skip _ _ _ (by omega)]
    rw [readString_skip _ _ _ (by omega)]
    rw [readString_skip _ _ _ (by omega)]
    rw [readString_skip _ _ _ (by omega)]
    rw [readString_skip _ _ _ (by omega)]
    rw [readString_skip _ _ _ (by omega)]
    rw [readString_skip _ _ _ (by omega)]
    rw [show 320 + padLen name.length - 32 - 32 - 32 - 32 - 32 - 32 - 32 - 32 - 32 =
        (strTail name).length + 0 by
      simp [length_strTail]
      omega]
    rw [readString_append, happ]
  simp only [decodeB, h128, h192, h224, h256, hstr0, hstr1, Nat.mod_eq_of_lt hc]

/-! ### C6: decode round-trip -/

/-- C6: for every well-formed format-A call data (ABI encoding of string
name, string symbol, uint256 totalSupply, uint256 taxPercentage under
selector 0x0b8c6fec) and format-B call data (nine parameters under selector
0x30f51a46), `decodeTokenCreationData` returns the encoded name, symbol,
totalSupply (as a decimal string) and, for format B, the creator address,
exactly; in particular, the encoding of ("MyToken","MYT",1000,10) under
0x0b8c6fec yields metadata name "MyToken", symbol "MYT", totalSupply
"1000". -/
theorem C6_decode_roundtrip :
    (∀ (name symbol : List Nat) (sup tax : Nat),
      160 + padLen name.length < 2 ^ 256 → symbol.length < 2 ^ 256 →
      sup < 2 ^ 256 → tax < 2 ^ 256 →
      decodeTokenCreationData "0x0b8c6fec" (selectorA ++ encodeA name symbol sup tax) =
        some ⟨name, symbol, Nat.repr sup, none⟩) ∧
    (∀ (p1 p2 p3 p4 creator p6 : Nat) (name symbol : List Nat) (sup : Nat),
      creator < 2 ^ 160 → 320 + padLen name.length < 2 ^ 256 →
      symbol.length < 2 ^ 256 → sup < 2 ^ 256 →
      decodeTokenCreationData "0x30f51a46"
          (selectorB ++ encodeB p1 p2 p3 p4 creator p6 name symbol sup) =
        some ⟨name, symbol, Nat.repr sup, some creator⟩) ∧
    decodeTokenCreationData "0x0b8c6fec"
        (selectorA ++ encodeA (asciiBytes "MyToken") (asciiBytes "MYT") 1000 10) =
      some ⟨asciiBytes "MyToken", asciiBytes "MYT", "1000", none⟩ := by
  have hA : ∀ (name symbol : List Nat) (sup tax : Nat),
      160 + padLen name.length < 2 ^ 256 → symbol.length < 2 ^ 256 →
      sup < 2 ^ 256 → tax < 2 ^ 256 →
      decodeTokenCreationData "0x0b8c6fec" (selectorA ++ encodeA name symbol sup tax) =
        some ⟨name, symbol, Nat.repr sup, none⟩ := by
    intro name symbol sup tax h1 h2 h3 h4
    have hdrop : (selectorA ++ encodeA name symbol sup tax).drop 4 = encodeA name symbol sup tax := by
      rw [show (4 : Nat) = selectorA.length from rfl, drop_append_len]
    simp only [decodeTokenCreationData, if_pos]
    rw [hdrop, decodeA_encodeA name symbol sup tax h1 h2 h3 h4]
  have hB : ∀ (p1 p2 p3 p4 creator p6 : Nat) (name symbol : List Nat) (sup : Nat),
      creator < 2 ^ 160 → 320 + padLen name.length < 2 ^ 256 →
      symbol.length < 2 ^ 256 → sup < 2 ^ 256 →
      decodeTokenCreationData "0x30f51a46"
          (selectorB ++ encodeB p1 p2 p3 p4 creator p6 name symbol sup) =
        some ⟨name, symbol, Nat.repr sup, some creator⟩ := by
    intro p1 p2 p3 p4 creator p6 name symbol sup h1 h2 h3 h4
    have hdrop : (selectorB ++ encodeB p1 p2 p3 p4 creator p6 name symbol sup).drop 4 =
        encodeB p1 p2 p3 p4 creator p6 name symbol sup := by
      rw [show (4 : Nat) = selectorB.length from rfl, drop_append_len]
    rw [show decodeTokenCreationData "0x30f51a46"
          (selectorB ++ encodeB p1 p2 p3 p4 creator p6 name symbol sup) =
        (let d := decodeB ((selectorB ++ encodeB p1 p2 p3 p4 creator p6 name symbol sup).drop 4)
         some ⟨d.2.1, d.2.2.1, Nat.repr d.2.2.2, some d.1⟩) from rfl]
    rw [hdrop, decodeB_encodeB p1 p2 p3 p4 creator p6 name symbol sup h1 h2 h3 h4]
  refine ⟨hA, hB, ?_⟩
  rw [hA (asciiBytes "MyToken") (asciiBytes "MYT") 1000 10 (by decide) (by decide)
    (by decide) (by decide)]
  rfl

/-- Witness for C6: both universally quantified parts evaluated at concrete
inputs with their hypotheses discharged. -/
theorem C6_decode_roundtrip_witness :
    decodeTokenCreationData "0x0b8c6fec" (selectorA ++ encodeA [65] [66] 7 0) =
        some ⟨[65], [66], "7", none⟩ ∧
    decodeTokenCreationData "0x30f51a46" (selectorB ++ encodeB 1 2 3 4 5 6 [77] [78] 9) =
        some ⟨[77], [78], "9", some 5⟩ := by
  constructor
  · rw [C6_decode_roundtrip.1 [65] [66] 7 0 (by decide) (by decide) (by decide) (by decide)]
    rfl
  · rw [C6_decode_roundtrip.2.1 1 2 3 4 5 6 [77] [78] 9 (by decide) (by decide) (by decide)
      (by decide)]
    rfl

/-! ### C7: unknown-selector fallback -/

theorem qdiv_pos_iff (value : Nat) : (value : ℚ) / 10 ^ 18 > 0 ↔ 0 < value := by
  rw [gt_iff_lt, lt_div_iff₀ (by norm_num : (0 : ℚ) < 10 ^ 18)]
  simp

/-- C7 counterexample: for the unknown selector text "create" the fallback
classifies TOKEN_CREATION but its description is "Possible token creation"
(capital P), not "possible token creation" as the claim states. -/
theorem C7_description_counterexample :
    lookupMethodSignature "create" = none ∧
    (determineTransactionType "create" 0).type = TransactionType.TOKEN_CREATION ∧
    (determineTransactionType "create" 0).description = "Possible token creation" ∧
    (determineTransactionType "create" 0).description ≠ "possible token creation" := by
  decide

/-- C7 (amended): for every method selector absent from the known-selector
table, if the selector's lower-cased text contains "create" or "token" the
classification is TOKEN_CREATION with description "Possible token creation";
otherwise with positive transaction value it is BUY; otherwise UNKNOWN. -/
theorem C7_unknown_selector_fallback :
    ∀ (methodId : String) (value : Nat), lookupMethodSignature methodId = none →
      ((containsSub (lowerString methodId) "create" ||
          containsSub (lowerString methodId) "token") = true →
        determineTransactionType methodId value =
          ⟨TransactionType.TOKEN_CREATION, "Possible token creation", "unknown_create"⟩) ∧
      ((containsSub (lowerString methodId) "create" ||
          containsSub (lowerString methodId) "token") = false →
        0 < value → (determineTransactionType methodId value).type = TransactionType.BUY) ∧
      ((containsSub (lowerString methodId) "create" ||
          containsSub (lowerString methodId) "token") = false →
        value = 0 → (determineTransactionType methodId value).type = TransactionType.UNKNOWN) := by
  intro methodId value h
  refine ⟨?_, ?_, ?_⟩
  · intro hc
    simp [determineTransactionType, h, hc]
  · intro hc hv
    have hq : (value : ℚ) / 10 ^ 18 > 0 := (qdiv_pos_iff value).mpr hv
    simp [determineTransactionType, h, hc, hq]
  · intro hc hv
    subst hv
    have hq : ¬ ((0 : Nat) : ℚ) / 10 ^ 18 > 0 := by norm_num
    simp [determineTransactionType, h, hc, hq]

/-- Witness for C7 (amended): the three fallback branches at concrete
selectors. -/
theorem C7_unknown_selector_fallback_witness :
    determineTransactionType "create" 7 =
      ⟨TransactionType.TOKEN_CREATION, "Possible token creation", "unknown_create"⟩ ∧
    (determineTransactionType "0xdeadbeef" 5).type = TransactionType.BUY ∧
    (determineTransactionType "0xdeadbeef" 0).type = TransactionType.UNKNOWN :=
  ⟨(C7_unknown_selector_fallback "create" 7 (by decide)).1 (by decide),
   (C7_unknown_selector_fallback "0xdeadbeef" 5 (by decide)).2.1 (by decide) (by decide),
   (C7_unknown_selector_fallback "0xdeadbeef" 0 (by decide)).2.2 (by decide) rfl⟩

/-! ### C3: tier function -/

theorem isChampion_getD_false (p : ArenaUserProfile) (hc : ¬ p.isArenaChampion = some true) :
    p.isArenaChampion.getD false = false := by
  cases h : p.isArenaChampion with
  | none => rfl
  | some b =>
    cases b with
    | true => exact absurd h hc
    | false => rfl

/-- C3: for every resolved profile the tier is champion iff the champion flag
is set (regardless of followers or price); otherwise heavy-hitter iff
followers reach 5000 or the ticket price in whole native-token units reaches
1.5; otherwise regular.  The boundaries are exact: followers 5000 and a
1.5-token price qualify, 4999 and 1.4999 do not. -/
theorem C3_tier_function :
    (∀ p : ArenaUserProfile,
      (postTypeOf p = PostType.champion ↔ p.isArenaChampion = some true) ∧
      (¬ p.isArenaChampion = some true →
        (postTypeOf p = PostType.heavyHitter ↔
          5000 ≤ followersOf p ∨ (3 : ℚ) / 2 ≤ ticketPriceOf p)) ∧
      (¬ p.isArenaChampion = some true → followersOf p < 5000 →
        ticketPriceOf p < 3 / 2 → postTypeOf p = PostType.regular)) ∧
    postTypeOf ⟨some "u", some 0, some 0, none, some true⟩ = PostType.champion ∧
    postTypeOf ⟨some "u", some 5000, none, none, some false⟩ = PostType.heavyHitter ∧
    postTypeOf ⟨some "u", some 4999, none, none, some false⟩ = PostType.regular ∧
    postTypeOf ⟨some "u", some 0, some 1500000000000000000, none, some false⟩ =
      PostType.heavyHitter ∧
    postTypeOf ⟨some "u", some 0, some 1499900000000000000, none, some false⟩ =
      PostType.regular := by
  have huniv : ∀ p : ArenaUserProfile,
      (postTypeOf p = PostType.champion ↔ p.isArenaChampion = some true) ∧
      (¬ p.isArenaChampion = some true →
        (postTypeOf p = PostType.heavyHitter ↔
          5000 ≤ followersOf p ∨ (3 : ℚ) / 2 ≤ ticketPriceOf p)) ∧
      (¬ p.isArenaChampion = some true → followersOf p < 5000 →
        ticketPriceOf p < 3 / 2 → postTypeOf p = PostType.regular) := by
    intro p
    by_cases hc : p.isArenaChampion = some true
    · refine ⟨by simp [postTypeOf, hc], fun h => absurd hc h, fun h => absurd hc h⟩
    · have hg := isChampion_getD_false p hc
      by_cases hd : 5000 ≤ followersOf p ∨ (3 : ℚ) / 2 ≤ ticketPriceOf p
      · have hd' : followersOf p ≥ 5000 ∨ ticketPriceOf p ≥ 3 / 2 := hd
        refine ⟨?_, fun _ => ?_, fun _ h1 h2 => ?_⟩
        · simp [postTypeOf, hg, hd']
          intro h
          exact absurd h hc
        · simp [postTypeOf, hg, hd']
        · rcases hd with h | h
          · omega
          · exact absurd h (not_le.mpr h2)
      · have hd' : ¬ (followersOf p ≥ 5000 ∨ ticketPriceOf p ≥ 3 / 2) := hd
        refine ⟨?_, fun _ => ?_, fun _ _ _ => ?_⟩
        · simp [postTypeOf, hg, hd']
          intro h
          exact absurd h hc
        · simp [postTypeOf, hg, hd']
        · simp [postTypeOf, hg, hd']
  refine ⟨huniv, by simp [postTypeOf], ?_, ?_, ?_, ?_⟩
  · simp [postTypeOf, followersOf]
  · have h1 : ¬ ((5000 : Nat) ≤ followersOf ⟨some "u", some 4999, none, none, some false⟩ ∨
        (3 : ℚ) / 2 ≤ ticketPriceOf ⟨some "u", some 4999, none, none, some false⟩) := by
      simp [followersOf, ticketPriceOf]
    simp [postTypeOf] at h1 ⊢
    simp [h1]
  · have h1 : (3 : ℚ) / 2 ≤ ticketPriceOf ⟨some "u", some 0, some 1500000000000000000, none, some false⟩ := by
      simp [ticketPriceOf]
      norm_num
    simp [postTypeOf, h1]
  · have h1 : ¬ ((5000 : Nat) ≤ followersOf ⟨some "u", some 0, some 1499900000000000000, none, some false⟩ ∨
        (3 : ℚ) / 2 ≤ ticketPriceOf ⟨some "u", some 0, some 1499900000000000000, none, some false⟩) := by
      simp [followersOf, ticketPriceOf]
      norm_num
    simp [postTypeOf] at h1 ⊢
    simp [h1]

/-- Witness for C3: the universal clauses applied at concrete profiles. -/
theorem C3_tier_function_witness :
    postTypeOf ⟨some "u", some 6000, none, none, some false⟩ = PostType.heavyHitter ∧
    postTypeOf ⟨some "u", some 3, none, none, some false⟩ = PostType.regular :=
  ⟨((C3_tier_function.1 ⟨some "u", some 6000, none, none, some false⟩).2.1 (by decide)).mpr
      (Or.inl (by decide)),
   (C3_tier_function.1 ⟨some "u", some 3, none, none, some false⟩).2.2 (by decide) (by decide)
      (by norm_num [ticketPriceOf])⟩

/-! ### C8: champion flag from the stats stage -/

theorem champion_badge_iff (b : ArenaBadge) :
    (championBadgeStrict b = true ∨ championBadgeLoose b = true) ↔
    (jsToNumber b.badgeType = some 19 ∨ jsToString b.badgeType = "19") := by
  constructor
  · intro h
    rcases h with h | h
    · simp only [championBadgeStrict, Bool.or_eq_true, decide_eq_true_eq] at h
      rcases h with (h | h) | h
      · left
        rw [h]
        rfl
      · left
        rw [h]
        rfl
      · left
        exact h
    · right
      simpa [championBadgeLoose] using h
  · intro h
    rcases h with h | h
    · left
      simp [championBadgeStrict, h]
    · right
      simp [championBadgeLoose, h]

/-- C8: after a stats-stage completion the champion flag is true iff the
badge list contains an entry whose badge-type code equals 19 under the
tolerant numeric/string comparison; a missing badge array, a non-2xx status,
or a fetch error each set the flag explicitly to false, and the flag is
never left undefined. -/
theorem C8_champion_flag :
    ∀ (p : ArenaUserProfile) (outcome : StatsOutcome),
      (fetchStatsStage p outcome).isArenaChampion ≠ none ∧
      (∀ data bs, outcome = StatsOutcome.ok data → data.badges = some bs →
        ((fetchStatsStage p outcome).isArenaChampion = some true ↔
          ∃ b ∈ bs, jsToNumber b.badgeType = some 19 ∨ jsToString b.badgeType = "19")) ∧
      (∀ data, outcome = StatsOutcome.ok data → data.badges = none →
        (fetchStatsStage p outcome).isArenaChampion = some false) ∧
      (∀ status, outcome = StatsOutcome.httpError status →
        (fetchStatsStage p outcome).isArenaChampion = some false) ∧
      (outcome = StatsOutcome.fetchError →
        (fetchStatsStage p outcome).isArenaChampion = some false) := by
  intro p outcome
  cases outcome with
  | ok data =>
    cases hb : data.badges with
    | none =>
      refine ⟨by simp [fetchStatsStage, hb], ?_, by simp [fetchStatsStage, hb], ?_, ?_⟩
      · intro d bs hd hbs
        rw [show d = data from (StatsOutcome.ok.inj hd).symm] at hbs
        rw [hb] at hbs
        exact absurd hbs (by simp)
      · intro s h
        exact absurd h (by simp)
      · intro h
        exact absurd h (by simp)
    | some bs =>
      refine ⟨by simp [fetchStatsStage, hb], ?_, ?_, ?_, ?_⟩
      · intro d bs' hd hbs
        rw [show d = data from (StatsOutcome.ok.inj hd).symm] at hbs
        rw [hb] at hbs
        rw [show bs' = bs from (Option.some.inj hbs).symm]
        simp only [fetchStatsStage, hb, Option.some.injEq]
        rw [Bool.or_eq_true, List.find?_isSome, List.find?_isSome]
        constructor
        · intro h
          rcases h with ⟨b, hbmem, hbp⟩ | ⟨b, hbmem, hbp⟩
          · exact ⟨b, hbmem, (champion_badge_iff b).mp (Or.inl hbp)⟩
          · exact ⟨b, hbmem, (champion_badge_iff b).mp (Or.inr hbp)⟩
        · intro h
          rcases h with ⟨b, hbmem, hbp⟩
          rcases (champion_badge_iff b).mpr hbp with h' | h'
          · exact Or.inl ⟨b, hbmem, h'⟩
          · exact Or.inr ⟨b, hbmem, h'⟩
      · intro d hd hbs
        rw [show d = data from (StatsOutcome.ok.inj hd).symm] at hbs
        rw [hb] at hbs
        exact absurd hbs (by simp)
      · intro s h
        exact absurd h (by simp)
      · intro h
        exact absurd h (by simp)
  | httpError status =>
    refine ⟨by simp [fetchStatsStage], ?_, ?_, ?_, ?_⟩
    · intro d bs hd
      exact absurd hd (by simp)
    · intro d hd
      exact absurd hd (by simp)
    · intro s _
      simp [fetchStatsStage]
    · intro h
      exact absurd h (by simp)
  | fetchError =>
    refine ⟨by simp [fetchStatsStage], ?_, ?_, ?_, ?_⟩
    · intro d bs hd
      exact absurd hd (by simp)
    · intro d hd
      exact absurd hd (by simp)
    · intro s h
      exact absurd h (by simp)
    · intro _
      simp [fetchStatsStage]

/-- Witness for C8: a champion badge delivered as the string "19" is
recognised; a permission-denied stats response forces the flag to false. -/
theorem C8_champion_flag_witness :
    (fetchStatsStage ⟨some "u", none, none, none, none⟩
        (StatsOutcome.ok ⟨some [⟨1, "uid", JsVal.str "19", 0⟩]⟩)).isArenaChampion = some true ∧
    (fetchStatsStage ⟨some "u", none, none, none, none⟩
        (StatsOutcome.httpError 403)).isArenaChampion = some false :=
  ⟨((C8_champion_flag ⟨some "u", none, none, none, none⟩
        (StatsOutcome.ok ⟨some [⟨1, "uid", JsVal.str "19", 0⟩]⟩)).2.1
      ⟨some [⟨1, "uid", JsVal.str "19", 0⟩]⟩ [⟨1, "uid", JsVal.str "19", 0⟩] rfl rfl).mpr
      ⟨⟨1, "uid", JsVal.str "19", 0⟩, by simp, Or.inl (by decide)⟩,
   (C8_champion_flag ⟨some "u", none, none, none, none⟩
        (StatsOutcome.httpError 403)).2.2.2.1 403 rfl⟩

/-! ### C2: steady-state delivery -/

/-- C2 counterexample: a BUY transaction addressed to the tracked contract
(known selector 0xa6f2ae3a, positive value) is classified but produces no
event and no delivery in the steady-state tick, because the monitor skips
every transaction whose classification is not TOKEN_CREATION. -/
theorem C2_delivery_counterexample :
    (determineTransactionType
        (strTake "0xa6f2ae3a" 10)
        1).type = TransactionType.BUY ∧
    monitorBlockEvents
        [⟨"0xh1", "0xsender", some ARENA_CONTRACT_ADDRESS, "0xa6f2ae3a", 1⟩] = [] ∧
    notifyDeliveries [0]
        (monitorBlockEvents
          [⟨"0xh1", "0xsender", some ARENA_CONTRACT_ADDRESS, "0xa6f2ae3a", 1⟩]) = [] := by
  decide

/-- C2 (amended): in the steady-state tick, a transaction addressed to the
tracked contract is delivered to every subscriber exactly when its
classification is TOKEN_CREATION; transactions of every other kind are
skipped and never delivered. -/
theorem C2_monitor_delivers_only_creations :
    ∀ (txs : List RawTx) (subs : List Nat),
      (∀ d ∈ notifyDeliveries subs (monitorBlockEvents txs),
        d.2.transactionType = TransactionType.TOKEN_CREATION ∧ d.2.isTokenCreation = true) ∧
      (∀ tx ∈ txs, tx.toAddr.map lowerString = some (lowerString ARENA_CONTRACT_ADDRESS) →
        (determineTransactionType (strTake tx.input 10) tx.value).type =
          TransactionType.TOKEN_CREATION →
        ∀ s ∈ subs, (s, mkMonitorEvent tx) ∈ notifyDeliveries subs (monitorBlockEvents txs)) := by
  intro txs subs
  constructor
  · intro d hd
    simp only [notifyDeliveries, List.mem_flatMap, List.mem_map] at hd
    obtain ⟨e, he, s, _, rfl⟩ := hd
    simp only [monitorBlockEvents, List.mem_filterMap] at he
    obtain ⟨tx, _, htx⟩ := he
    by_cases haddr : tx.toAddr.map lowerString = some (lowerString ARENA_CONTRACT_ADDRESS)
    · rw [if_pos haddr] at htx
      by_cases htype : (determineTransactionType (strTake tx.input 10) tx.value).type =
          TransactionType.TOKEN_CREATION
      · simp only [htype, ne_eq, not_true_eq_false, if_false] at htx
        have : e = mkMonitorEvent tx := by
          simpa using htx.symm
        subst this
        simp [mkMonitorEvent, htype]
      · simp [htype] at htx
    · rw [if_neg haddr] at htx
      exact absurd htx (by simp)
  · intro tx htx haddr htype s hs
    have hev : mkMonitorEvent tx ∈ monitorBlockEvents txs := by
      simp only [monitorBlockEvents, List.mem_filterMap]
      refine ⟨tx, htx, ?_⟩
      rw [if_pos haddr]
      simp [htype]
    simp only [notifyDeliveries, List.mem_flatMap, List.mem_map]
    exact ⟨mkMonitorEvent tx, hev, s, hs, rfl⟩

/-- Witness for C2 (amended): a creation transaction (known selector
0x0b8c6fec) addressed to the tracked contract is delivered to subscriber 0. -/
theorem C2_monitor_delivers_only_creations_witness :
    (0, mkMonitorEvent ⟨"0xh2", "0xs", some ARENA_CONTRACT_ADDRESS, "0x0b8c6fec", 0⟩) ∈
      notifyDeliveries [0]
        (monitorBlockEvents [⟨"0xh2", "0xs", some ARENA_CONTRACT_ADDRESS, "0x0b8c6fec", 0⟩]) :=
  (C2_monitor_delivers_only_creations
      [⟨"0xh2", "0xs", some ARENA_CONTRACT_ADDRESS, "0x0b8c6fec", 0⟩] [0]).2
    ⟨"0xh2", "0xs", some ARENA_CONTRACT_ADDRESS, "0x0b8c6fec", 0⟩ (by simp)
    (by decide) (by decide) 0 (by simp)

/-! ### C9 and C10: creator ticker list and contract count -/

theorem find?_map_congr {α : Type} (l : List α) (f : α → α) (p : α → Bool)
    (h : ∀ a, p (f a) = p a) : (l.map f).find? p = (l.find? p).map f := by
  induction l with
  | nil => rfl
  | cons a l ih =>
    cases hp : p a with
    | true =>
      rw [List.map_cons, List.find?_cons_of_pos _ (by rw [h a]; exact hp),
        List.find?_cons_of_pos _ hp]
      rfl
    | false =>
      rw [List.map_cons, List.find?_cons_of_neg _ (by rw [h a, hp]; simp),
        List.find?_cons_of_neg _ (by rw [hp]; simp), ih]

theorem nodup_append_single {α : Type} (l : List α) (x : α) (hl : l.Nodup) (hx : x ∉ l) :
    (l ++ [x]).Nodup := by
  rw [List.nodup_append]
  refine ⟨hl, List.nodup_singleton x, ?_⟩
  intro a ha hb
  simp only [List.mem_singleton] at hb
  subst hb
  exact hx ha

/-- The effect of `addCreatorContract` on an existing creator row: the
contract count is incremented and the ticker appended only when its symbol is
absent. -/
theorem addCreatorContract_existing (db : DB) (now : Nat) (w s : String)
    (n a h : Option String) (c : CreatorRow) (hg : getCreator db w = some c) :
    getCreator (addCreatorContract db now w s n a h).1 w = some
      { c with
        contracts_created := c.contracts_created + 1,
        contract_tickers :=
          if c.contract_tickers.any (fun t => t.symbol = s) then c.contract_tickers
          else c.contract_tickers ++ [⟨s, n, a, h, now⟩] } := by
  have hw : c.wallet_address = w := by
    have := List.find?_some hg
    simpa using this
  unfold addCreatorContract
  rw [hg]
  simp only
  unfold getCreator
  rw [find?_map_congr _ _ _ (by
    intro a0
    by_cases h0 : a0.wallet_address = w <;> simp [h0])]
  have : db.creators.find? (fun c0 => c0.wallet_address = w) = some c := hg
  rw [this]
  simp [hw]

/-- C9 counterexample: two `addCreatorContract` operations with the same
transaction hash but different symbols leave the ticker list with two entries
carrying the same transaction hash, so the hash-dedup invariant of the claim
fails on the code. -/
theorem C9_hash_dedup_counterexample :
    ((runAddOps ⟨0, [], []⟩ 0
        [⟨"0xw", "AAA", none, none, some "0xh"⟩,
         ⟨"0xw", "BBB", none, none, some "0xh"⟩]).creators.map
      (fun c => c.contract_tickers.map (fun t => t.transaction_hash))) =
      [[some "0xh", some "0xh"]] ∧
    ¬ ([some "0xh", some "0xh"] : List (Option String)).Nodup := by
  decide

/-- C9 (amended): over every sequence of `addCreatorContract` operations the
ticker list of every creator never contains two entries with the same symbol,
and an entry whose symbol is already present is never appended again; the
same transaction hash, however, can occur in two entries (dedup is by symbol
only). -/
theorem C9_symbol_dedup :
    (∀ (db : DB) (now : Nat) (ops : List AddOp),
      (∀ c ∈ db.creators, (c.contract_tickers.map (fun t => t.symbol)).Nodup) →
      ∀ c ∈ (runAddOps db now ops).creators,
        (c.contract_tickers.map (fun t => t.symbol)).Nodup) ∧
    (∀ (db : DB) (now : Nat) (w s : String) (n a h : Option String) (c : CreatorRow),
      getCreator db w = some c →
      c.contract_tickers.any (fun t => t.symbol = s) = true →
      ∃ c', getCreator (addCreatorContract db now w s n a h).1 w = some c' ∧
        c'.contract_tickers = c.contract_tickers) := by
  constructor
  · have step : ∀ (db : DB) (now : Nat) (w s : String) (n a h : Option String),
        (∀ c ∈ db.creators, (c.contract_tickers.map (fun t => t.symbol)).Nodup) →
        ∀ c ∈ (addCreatorContract db now w s n a h).1.creators,
          (c.contract_tickers.map (fun t => t.symbol)).Nodup := by
      intro db now w s n a h hdb c hc
      unfold addCreatorContract at hc
      cases hg : getCreator db w with
      | none =>
        rw [hg] at hc
        simp only [List.mem_append, List.mem_singleton] at hc
        rcases hc with h1 | h1
        · exact hdb c h1
        · subst h1
          simp
      | some creator =>
        rw [hg] at hc
        simp only [List.mem_map] at hc
        obtain ⟨c0, hc0, rfl⟩ := hc
        have hcr : creator ∈ db.creators := List.mem_of_find?_eq_some hg
        have hnd := hdb creator hcr
        by_cases hw : c0.wallet_address = w
        · rw [if_pos hw]
          simp only
          by_cases hex : creator.contract_tickers.any (fun t => t.symbol = s) = true
          · simpa [hex] using hnd
          · have hs : s ∉ creator.contract_tickers.map (fun t => t.symbol) := by
              simp only [List.any_eq_true, decide_eq_true_eq] at hex
              simp only [List.mem_map]
              rintro ⟨t, ht, hts⟩
              exact hex ⟨t, ht, hts⟩
            simp only [hex, if_false, Bool.false_eq_true, List.map_append]
            exact nodup_append_single _ _ hnd hs
        · rw [if_neg hw]
          exact hdb c0 hc0
    intro db now ops
    induction ops generalizing db with
    | nil =>
      intro hdb
      simpa [runAddOps] using hdb
    | cons op ops ih =>
      intro hdb
      have h1 := step db now op.wallet op.symbol op.name op.address op.txHash hdb
      have : runAddOps db now (op :: ops) =
          runAddOps (addCreatorContract db now op.wallet op.symbol op.name op.address op.txHash).1
            now ops := by
        simp [runAddOps]
      rw [this]
      exact ih _ h1
  · intro db now w s n a h c hg hex
    refine ⟨_, addCreatorContract_existing db now w s n a h c hg, ?_⟩
    simp [hex]

/-- Witness for C9 (amended): a run from the empty database keeps symbols
deduplicated, and a repeated symbol is not re-appended. -/
theorem C9_symbol_dedup_witness :
    (∀ c ∈ (runAddOps ⟨0, [], []⟩ 0
        [⟨"0xw", "AAA", none, none, some "0xh1"⟩,
         ⟨"0xw", "AAA", none, none, some "0xh2"⟩]).creators,
      (c.contract_tickers.map (fun t => t.symbol)).Nodup) ∧
    (∃ c', getCreator (addCreatorContract ⟨1, [], [⟨0, "0xw", 1, [⟨"AAA", none, none, some "0xh1", 0⟩]⟩]⟩
        0 "0xw" "AAA" none none (some "0xh2")).1 "0xw" = some c' ∧
      c'.contract_tickers = [⟨"AAA", none, none, some "0xh1", 0⟩]) :=
  ⟨C9_symbol_dedup.1 ⟨0, [], []⟩ 0 _ (by simp),
   C9_symbol_dedup.2 ⟨1, [], [⟨0, "0xw", 1, [⟨"AAA", none, none, some "0xh1", 0⟩]⟩]⟩
     0 "0xw" "AAA" none none (some "0xh2") ⟨0, "0xw", 1, [⟨"AAA", none, none, some "0xh1", 0⟩]⟩
     (by decide) (by decide)⟩

/-- C10: on an existing creator row `addCreatorContract` increments the
persisted contract count by exactly 1 even when the ticker is not appended
because its symbol is already present, so `contracts_created` can strictly
exceed the ticker-list length (witnessed by two creations with the same
symbol: count 2, one ticker). -/
theorem C10_contracts_increment :
    (∀ (db : DB) (now : Nat) (w s : String) (n a h : Option String) (c : CreatorRow),
      getCreator db w = some c →
      ∃ c', getCreator (addCreatorContract db now w s n a h).1 w = some c' ∧
        c'.contracts_created = c.contracts_created + 1 ∧
        (c.contract_tickers.any (fun t => t.symbol = s) = true →
          c'.contract_tickers = c.contract_tickers)) ∧
    ((runAddOps ⟨0, [], []⟩ 0
        [⟨"0xw", "AAA", none, none, some "0xh1"⟩,
         ⟨"0xw", "AAA", none, none, some "0xh2"⟩]).creators.map
      (fun c => (c.contracts_created, c.contract_tickers.length))) = [(2, 1)] := by
  constructor
  · intro db now w s n a h c hg
    refine ⟨_, addCreatorContract_existing db now w s n a h c hg, rfl, ?_⟩
    intro hex
    simp [hex]
  · decide

/-- Witness for C10: the increment applied to a concrete database with the
symbol already present. -/
theorem C10_contracts_increment_witness :
    ∃ c', getCreator (addCreatorContract ⟨1, [], [⟨0, "0xw", 1, [⟨"AAA", none, none, some "0xh1", 0⟩]⟩]⟩
        0 "0xw" "AAA" none none (some "0xh2")).1 "0xw" = some c' ∧
      c'.contracts_created = 2 ∧ c'.contract_tickers.length = 1 := by
  obtain ⟨c', h1, h2, h3⟩ := C10_contracts_increment.1
    ⟨1, [], [⟨0, "0xw", 1, [⟨"AAA", none, none, some "0xh1", 0⟩]⟩]⟩ 0 "0xw" "AAA" none none
    (some "0xh2") ⟨0, "0xw", 1, [⟨"AAA", none, none, some "0xh1", 0⟩]⟩ (by decide)
  refine ⟨c', h1, by simpa using h2, ?_⟩
  rw [h3 (by decide)]
  rfl

/-! ### Dispatcher phase lemmas (for C1, C4, C5) -/

theorem txRows_addCreatorContract (db : DB) (now : Nat) (w s : String)
    (n a h : Option String) : ((addCreatorContract db now w s n a h).1).txRows = db.txRows := by
  unfold addCreatorContract
  cases getCreator db w <;> rfl

theorem creators_setArenaFlag (db : DB) (i : Nat) : (setArenaFlag db i).creators = db.creators :=
  rfl

theorem creators_setDiscordFlag (db : DB) (i : Nat) :
    (setDiscordFlag db i).creators = db.creators :=
  rfl

theorem findTxRow_addCreatorContract (db : DB) (now : Nat) (w s : String)
    (n a h : Option String) (hash : String) :
    findTxRow (addCreatorContract db now w s n a h).1 hash = findTxRow db hash := by
  unfold findTxRow
  rw [txRows_addCreatorContract]

theorem findTxRow_setArenaFlag (db : DB) (i : Nat) (hash : String) :
    findTxRow (setArenaFlag db i) hash =
      (findTxRow db hash).map (fun r => if r.id = i then { r with posted_to_arena := true } else r) := by
  unfold findTxRow setArenaFlag
  exact find?_map_congr _ _ _ (by
    intro r
    by_cases h : r.id = i <;> simp [h])

theorem findTxRow_setDiscordFlag (db : DB) (i : Nat) (hash : String) :
    findTxRow (setDiscordFlag db i) hash =
      (findTxRow db hash).map (fun r => if r.id = i then { r with posted_to_discord := true } else r) := by
  unfold findTxRow setDiscordFlag
  exact find?_map_congr _ _ _ (by
    intro r
    by_cases h : r.id = i <;> simp [h])

theorem find?_append_of_none {α : Type} (l₁ l₂ : List α) (p : α → Bool)
    (h : l₁.find? p = none) : (l₁ ++ l₂).find? p = l₂.find? p := by
  induction l₁ with
  | nil => rfl
  | cons a l ih =>
    cases hp : p a with
    | true =>
      rw [List.find?_cons_of_pos _ hp] at h
      exact absurd h (by simp)
    | false =>
      rw [List.find?_cons_of_neg _ (by simp [hp])] at h
      rw [List.cons_append, List.find?_cons_of_neg _ (by simp [hp]), ih h]

theorem findTxRow_save_none (db : DB) (hash : String) (h : findTxRow db hash = none) :
    findTxRow (saveContractTransaction db hash).1 hash = some ⟨db.nextId, hash, false, false⟩ ∧
    (saveContractTransaction db hash).2 = db.nextId := by
  unfold saveContractTransaction
  rw [h]
  simp only
  constructor
  · unfold findTxRow at h ⊢
    rw [find?_append_of_none _ _ _ h]
    simp
  · trivial

/-- The post-status lookup always ends with a transaction row whose id is the
returned transaction id and whose flags are the returned already-sent
flags. -/
theorem lookupPostStatus_spec (now : Nat) (st : SysState) (key : PostCacheKey) (hash : String) :
    ∃ r0, findTxRow (lookupPostStatus now st key hash).1.db hash = some r0 ∧
      (lookupPostStatus now st key hash).2.1 = some r0.id ∧
      (lookupPostStatus now st key hash).2.2.1 = r0.posted_to_arena ∧
      (lookupPostStatus now st key hash).2.2.2 = r0.posted_to_discord := by
  unfold lookupPostStatus
  cases hrow : findTxRow st.db hash with
  | some row =>
    refine ⟨row, ?_, rfl, rfl, rfl⟩
    have hdb : (if row.posted_to_discord then
          { (if row.posted_to_arena then
              { st with arenaPostCache := markPostAsSent st.arenaPostCache key "db" now }
            else st) with
            discordPostCache := markPostAsSent
              (if row.posted_to_arena then
                { st with arenaPostCache := markPostAsSent st.arenaPostCache key "db" now }
              else st).discordPostCache key "db" now }
        else
          (if row.posted_to_arena then
            { st with arenaPostCache := markPostAsSent st.arenaPostCache key "db" now }
          else st)).db = st.db := by
      split_ifs <;> rfl
    simp only
    rw [hdb]
    exact hrow
  | none =>
    have hs := findTxRow_save_none st.db hash hrow
    dsimp only
    exact ⟨⟨st.db.nextId, hash, false, false⟩, hs.1, by rw [hs.2], rfl, rfl⟩

/-- The lookup phase never touches the database when the row exists, and the
state's caches are the only other thing it can change. -/
theorem lookupPostStatus_db (now : Nat) (st : SysState) (key : PostCacheKey) (hash : String) :
    (lookupPostStatus now st key hash).1.db = st.db ∨
    (findTxRow st.db hash = none ∧
      (lookupPostStatus now st key hash).1.db = (saveContractTransaction st.db hash).1) := by
  unfold lookupPostStatus
  cases hrow : findTxRow st.db hash with
  | some row =>
    left
    simp only
    split_ifs <;> rfl
  | none =>
    right
    exact ⟨rfl, rfl⟩

theorem lookupPostStatus_arenaCache_of_not_sent (now : Nat) (st : SysState)
    (key : PostCacheKey) (hash : String)
    (h : (lookupPostStatus now st key hash).2.2.1 = false) :
    (lookupPostStatus now st key hash).1.arenaPostCache = st.arenaPostCache := by
  unfold lookupPostStatus at h ⊢
  cases hrow : findTxRow st.db hash with
  | some row =>
    rw [hrow] at h
    dsimp only at h ⊢
    rw [h]
    split_ifs <;> first | rfl | contradiction
  | none =>
    dsimp only

theorem lookupPostStatus_discordCache_of_not_sent (now : Nat) (st : SysState)
    (key : PostCacheKey) (hash : String)
    (h : (lookupPostStatus now st key hash).2.2.2 = false) :
    (lookupPostStatus now st key hash).1.discordPostCache = st.discordPostCache := by
  unfold lookupPostStatus at h ⊢
  cases hrow : findTxRow st.db hash with
  | some row =>
    rw [hrow] at h
    dsimp only at h ⊢
    rw [h]
    split_ifs <;> first | rfl | contradiction
  | none =>
    dsimp only

theorem countArena_append (l₁ l₂ : List Effect) :
    countArena (l₁ ++ l₂) = countArena l₁ + countArena l₂ := by
  simp [countArena, List.filter_append]

theorem countDiscord_append (l₁ l₂ : List Effect) :
    countDiscord (l₁ ++ l₂) = countDiscord l₁ + countDiscord l₂ := by
  simp [countDiscord, List.filter_append]

theorem cacheLookup_markPostAsSent_self (cache : PostCache) (k : PostCacheKey)
    (postType : String) (now : Nat) :
    cacheLookup (markPostAsSent cache k postType now) k = some ⟨true, now, postType⟩ := by
  unfold markPostAsSent cacheSet cacheLookup
  rw [List.find?_cons_of_pos _ (by simp)]
  rfl

theorem dispatchArena_sent (env : Env) (now : Nat) (st : SysState) (key : PostCacheKey)
    (tid : Option Nat) (pt : PostType) (u sym : String) :
    (dispatchArena env now st key tid pt u sym true).2 = [] := by
  unfold dispatchArena
  split_ifs <;> first | rfl | simp_all

theorem dispatchDiscord_sent (env : Env) (now : Nat) (st : SysState) (key : PostCacheKey)
    (tid : Option Nat) (pt : PostType) (u sym : String) :
    (dispatchDiscord env now st key tid pt u sym true).2 = [] := by
  unfold dispatchDiscord
  split_ifs <;> first | rfl | simp_all

theorem dispatchArena_effects (env : Env) (now : Nat) (st : SysState) (key : PostCacheKey)
    (tid : Option Nat) (pt : PostType) (u sym : String) (aSent : Bool) :
    (dispatchArena env now st key tid pt u sym aSent).2 = [] ∨
    (dispatchArena env now st key tid pt u sym aSent).2 = [Effect.arenaPost u sym] := by
  unfold dispatchArena
  split_ifs <;> simp

theorem dispatchDiscord_effects (env : Env) (now : Nat) (st : SysState) (key : PostCacheKey)
    (tid : Option Nat) (pt : PostType) (u sym : String) (dSent : Bool) :
    (dispatchDiscord env now st key tid pt u sym dSent).2 = [] ∨
    (dispatchDiscord env now st key tid pt u sym dSent).2 = [Effect.discordPost u sym] := by
  unfold dispatchDiscord
  split_ifs <;> simp

theorem countArena_dispatchDiscord (env : Env) (now : Nat) (st : SysState) (key : PostCacheKey)
    (tid : Option Nat) (pt : PostType) (u sym : String) (dSent : Bool) :
    countArena (dispatchDiscord env now st key tid pt u sym dSent).2 = 0 := by
  rcases dispatchDiscord_effects env now st key tid pt u sym dSent with h | h <;>
    simp [h, countArena, isArenaPostE]

theorem countDiscord_dispatchArena (env : Env) (now : Nat) (st : SysState) (key : PostCacheKey)
    (tid : Option Nat) (pt : PostType) (u sym : String) (aSent : Bool) :
    countDiscord (dispatchArena env now st key tid pt u sym aSent).2 = 0 := by
  rcases dispatchArena_effects env now st key tid pt u sym aSent with h | h <;>
    simp [h, countDiscord, isDiscordPostE]

theorem dispatchArena_mem (env : Env) (now : Nat) (st : SysState) (key : PostCacheKey)
    (tid : Option Nat) (pt : PostType) (u sym u' s' : String) (aSent : Bool)
    (h : Effect.arenaPost u' s' ∈ (dispatchArena env now st key tid pt u sym aSent).2) :
    aSent = false ∧ (pt = PostType.champion ∨ pt = PostType.heavyHitter) ∧
      u' = u ∧ s' = sym := by
  unfold dispatchArena at h
  split_ifs at h with h1 h2 <;> simp_all

theorem dispatchDiscord_mem (env : Env) (now : Nat) (st : SysState) (key : PostCacheKey)
    (tid : Option Nat) (pt : PostType) (u sym u' s' : String) (dSent : Bool)
    (h : Effect.discordPost u' s' ∈ (dispatchDiscord env now st key tid pt u sym dSent).2) :
    dSent = false ∧ u' = u ∧ s' = sym := by
  unfold dispatchDiscord at h
  split_ifs at h with h1 h2 <;> simp_all

theorem dispatchArena_success_state (env : Env) (now : Nat) (st : SysState) (key : PostCacheKey)
    (i : Nat) (pt : PostType) (u sym : String)
    (hok : env.arenaPostOk = true)
    (hpt : pt = PostType.champion ∨ pt = PostType.heavyHitter) :
    dispatchArena env now st key (some i) pt u sym false =
      ({ st with
          arenaPostCache := markPostAsSent st.arenaPostCache key (postTypeLabel pt) now,
          db := setArenaFlag st.db i },
       [Effect.arenaPost u sym]) := by
  unfold dispatchArena
  rw [if_pos ⟨hpt, rfl⟩, if_pos hok]

theorem dispatchArena_failure_state (env : Env) (now : Nat) (st : SysState) (key : PostCacheKey)
    (tid : Option Nat) (pt : PostType) (u sym : String)
    (hok : env.arenaPostOk = false)
    (hpt : pt = PostType.champion ∨ pt = PostType.heavyHitter) :
    dispatchArena env now st key tid pt u sym false = (st, [Effect.arenaPost u sym]) := by
  unfold dispatchArena
  rw [if_pos ⟨hpt, rfl⟩, if_neg (by simp [hok])]

theorem dispatchDiscord_success_state (env : Env) (now : Nat) (st : SysState) (key : PostCacheKey)
    (i : Nat) (pt : PostType) (u sym : String)
    (hok : env.discordPostOk = true) :
    dispatchDiscord env now st key (some i) pt u sym false =
      ({ st with
          discordPostCache := markPostAsSent st.discordPostCache key (postTypeLabel pt) now,
          db := setDiscordFlag st.db i },
       [Effect.discordPost u sym]) := by
  unfold dispatchDiscord
  rw [if_pos rfl, if_pos hok]

theorem dispatchDiscord_failure_state (env : Env) (now : Nat) (st : SysState) (key : PostCacheKey)
    (tid : Option Nat) (pt : PostType) (u sym : String)
    (hok : env.discordPostOk = false) :
    dispatchDiscord env now st key tid pt u sym false = (st, [Effect.discordPost u sym]) := by
  unfold dispatchDiscord
  rw [if_pos rfl, if_neg (by simp [hok])]

theorem dispatchDiscord_arenaCache (env : Env) (now : Nat) (st : SysState) (key : PostCacheKey)
    (tid : Option Nat) (pt : PostType) (u sym : String) (dSent : Bool) :
    (dispatchDiscord env now st key tid pt u sym dSent).1.arenaPostCache = st.arenaPostCache := by
  unfold dispatchDiscord
  split_ifs <;> cases tid <;> rfl

theorem dispatchArena_discordCache (env : Env) (now : Nat) (st : SysState) (key : PostCacheKey)
    (tid : Option Nat) (pt : PostType) (u sym : String) (aSent : Bool) :
    (dispatchArena env now st key tid pt u sym aSent).1.discordPostCache = st.discordPostCache := by
  unfold dispatchArena
  split_ifs <;> cases tid <;> rfl

theorem dispatchDiscord_findTxRow (env : Env) (now : Nat) (st : SysState) (key : PostCacheKey)
    (tid : Option Nat) (pt : PostType) (u sym : String) (dSent : Bool) :
    ∃ f : TxRow → TxRow,
      (∀ r, (f r).id = r.id ∧ (f r).hash = r.hash ∧ (f r).posted_to_arena = r.posted_to_arena) ∧
      (∀ hash, findTxRow (dispatchDiscord env now st key tid pt u sym dSent).1.db hash =
        (findTxRow st.db hash).map f) := by
  unfold dispatchDiscord
  split_ifs
  · cases tid with
    | some i =>
      refine ⟨(fun r => if r.id = i then { r with posted_to_discord := true } else r), ?_, ?_⟩
      · intro r
        by_cases hr : r.id = i <;> simp [hr]
      · intro hash
        exact findTxRow_setDiscordFlag st.db i hash
    | none =>
      refine ⟨id, by simp, ?_⟩
      intro hash
      simp
  · refine ⟨id, by simp, ?_⟩
    intro hash
    simp
  · refine ⟨id, by simp, ?_⟩
    intro hash
    simp

theorem dispatchArena_findTxRow (env : Env) (now : Nat) (st : SysState) (key : PostCacheKey)
    (tid : Option Nat) (pt : PostType) (u sym : String) (aSent : Bool) :
    ∃ f : TxRow → TxRow,
      (∀ r, (f r).id = r.id ∧ (f r).hash = r.hash ∧ (f r).posted_to_discord = r.posted_to_discord) ∧
      (∀ hash, findTxRow (dispatchArena env now st key tid pt u sym aSent).1.db hash =
        (findTxRow st.db hash).map f) := by
  unfold dispatchArena
  split_ifs
  · cases tid with
    | some i =>
      refine ⟨(fun r => if r.id = i then { r with posted_to_arena := true } else r), ?_, ?_⟩
      · intro r
        by_cases hr : r.id = i <;> simp [hr]
      · intro hash
        exact findTxRow_setArenaFlag st.db i hash
    | none =>
      refine ⟨id, by simp, ?_⟩
      intro hash
      simp
  · refine ⟨id, by simp, ?_⟩
    intro hash
    simp
  · refine ⟨id, by simp, ?_⟩
    intro hash
    simp
  · refine ⟨id, by simp, ?_⟩
    intro hash
    simp

theorem dispatchArena_creators (env : Env) (now : Nat) (st : SysState) (key : PostCacheKey)
    (tid : Option Nat) (pt : PostType) (u sym : String) (aSent : Bool) :
    (dispatchArena env now st key tid pt u sym aSent).1.db.creators = st.db.creators := by
  unfold dispatchArena
  split_ifs <;> cases tid <;> rfl

theorem dispatchDiscord_creators (env : Env) (now : Nat) (st : SysState) (key : PostCacheKey)
    (tid : Option Nat) (pt : PostType) (u sym : String) (dSent : Bool) :
    (dispatchDiscord env now st key tid pt u sym dSent).1.db.creators = st.db.creators := by
  unfold dispatchDiscord
  split_ifs <;> cases tid <;> rfl

theorem enrich_not_multi (env : Env) (now : Nat) (st : SysState) (key : PostCacheKey)
    (tid : Option Nat) (aSent dSent : Bool) (f s : String) (cc : Nat) (hcc : ¬ cc > 1) :
    enrichAndDispatch env now st key tid aSent dSent f s cc = (st, []) := by
  unfold enrichAndDispatch
  rw [if_neg hcc]

theorem enrich_countArena_sent (env : Env) (now : Nat) (st : SysState) (key : PostCacheKey)
    (tid : Option Nat) (dSent : Bool) (f s : String) (cc : Nat) :
    countArena (enrichAndDispatch env now st key tid true dSent f s cc).2 = 0 := by
  unfold enrichAndDispatch
  split_ifs with hcc
  · cases hp : env.profileFor f with
    | none => simp [hp, countArena, isArenaPostE]
    | some p =>
      cases hu : p.username with
      | none => simp [hp, hu, countArena, isArenaPostE]
      | some un =>
        dsimp only
        rw [hu]
        dsimp only
        by_cases hue : un ≠ ""
        · rw [if_pos hue]
          dsimp only
          rw [countArena, List.filter_cons_of_neg (by simp [isArenaPostE])]
          rw [List.filter_append]
          rw [dispatchArena_sent]
          have := countArena_dispatchDiscord env now
            (dispatchArena env now st key tid (postTypeOf p) un s true).1 key tid
            (postTypeOf p) un s dSent
          simpa [countArena] using this
        · rw [if_neg hue]
          simp [countArena, isArenaPostE]
  · simp [countArena, isArenaPostE]

theorem enrich_countDiscord_sent (env : Env) (now : Nat) (st : SysState) (key : PostCacheKey)
    (tid : Option Nat) (aSent : Bool) (f s : String) (cc : Nat) :
    countDiscord (enrichAndDispatch env now st key tid aSent true f s cc).2 = 0 := by
  unfold enrichAndDispatch
  split_ifs with hcc
  · cases hp : env.profileFor f with
    | none => simp [hp, countDiscord, isDiscordPostE]
    | some p =>
      cases hu : p.username with
      | none => simp [hp, hu, countDiscord, isDiscordPostE]
      | some un =>
        dsimp only
        rw [hu]
        dsimp only
        by_cases hue : un ≠ ""
        · rw [if_pos hue]
          dsimp only
          rw [countDiscord, List.filter_cons_of_neg (by simp [isDiscordPostE])]
          rw [List.filter_append]
          rw [dispatchDiscord_sent]
          have := countDiscord_dispatchArena env now st key tid (postTypeOf p) un s aSent
          simp only [countDiscord] at this
          simp [this]
        · rw [if_neg hue]
          simp [countDiscord, isDiscordPostE]
  · simp [countDiscord, isDiscordPostE]

theorem enrich_creators (env : Env) (now : Nat) (st : SysState) (key : PostCacheKey)
    (tid : Option Nat) (aSent dSent : Bool) (f s : String) (cc : Nat) :
    (enrichAndDispatch env now st key tid aSent dSent f s cc).1.db.creators = st.db.creators := by
  unfold enrichAndDispatch
  split_ifs with hcc
  · cases hp : env.profileFor f with
    | none => simp [hp]
    | some p =>
      cases hu : p.username with
      | none => simp [hp, hu]
      | some un =>
        dsimp only
        rw [hu]
        dsimp only
        by_cases hue : un ≠ ""
        · rw [if_pos hue]
          dsimp only
          rw [dispatchDiscord_creators, dispatchArena_creators]
        · rw [if_neg hue]
  · rfl

theorem countArena_pos_of_mem (u s : String) (l : List Effect)
    (h : Effect.arenaPost u s ∈ l) : 0 < countArena l := by
  unfold countArena
  have : Effect.arenaPost u s ∈ l.filter isArenaPostE :=
    List.mem_filter.mpr ⟨h, by simp [isArenaPostE]⟩
  exact List.length_pos.mpr (fun hn => by simp [hn] at this)

theorem countDiscord_pos_of_mem (u s : String) (l : List Effect)
    (h : Effect.discordPost u s ∈ l) : 0 < countDiscord l := by
  unfold countDiscord
  have : Effect.discordPost u s ∈ l.filter isDiscordPostE :=
    List.mem_filter.mpr ⟨h, by simp [isDiscordPostE]⟩
  exact List.length_pos.mpr (fun hn => by simp [hn] at this)

/-- Arena-channel behaviour of the post-lookup phase when an Arena post is
attempted: the persisted flag said not-sent, exactly one Arena call is made,
and on success both the cache entry and the persisted flag end up marked
while on failure both are left exactly as they were. -/
theorem afterLookup_arena (env : Env) (now : Nat) (st1 : SysState) (key : PostCacheKey)
    (aSent dSent : Bool) (tx : ProcessTx) (md : TokenMeta) (symbol : String) (r0 : TxRow)
    (hrow : findTxRow st1.db tx.hash = some r0) (u s : String)
    (hmem : Effect.arenaPost u s ∈
      (processAfterLookup env now st1 key (some r0.id) aSent dSent tx md symbol).2.1) :
    aSent = false ∧
    s = symbol ∧
    countArena (processAfterLookup env now st1 key (some r0.id) aSent dSent tx md symbol).2.1 = 1 ∧
    (env.arenaPostOk = true →
      (∃ e, cacheLookup
          (processAfterLookup env now st1 key (some r0.id) aSent dSent tx md symbol).1.arenaPostCache
          key = some e ∧ e.posted = true) ∧
      (∃ r', findTxRow
          (processAfterLookup env now st1 key (some r0.id) aSent dSent tx md symbol).1.db
          tx.hash = some r' ∧ r'.posted_to_arena = true)) ∧
    (env.arenaPostOk = false →
      (processAfterLookup env now st1 key (some r0.id) aSent dSent tx md symbol).1.arenaPostCache =
        st1.arenaPostCache ∧
      (∀ r', findTxRow
          (processAfterLookup env now st1 key (some r0.id) aSent dSent tx md symbol).1.db
          tx.hash = some r' → r'.posted_to_arena = r0.posted_to_arena)) := by
  unfold processAfterLookup at hmem ⊢
  cases haS : aSent with
  | true =>
    subst haS
    exfalso
    cases hdS : dSent with
    | true =>
      subst hdS
      simp at hmem
    | false =>
      subst hdS
      simp only [Bool.and_false, Bool.false_eq_true, if_false] at hmem
      have hp := countArena_pos_of_mem u s _ hmem
      rw [enrich_countArena_sent] at hp
      exact Nat.lt_irrefl 0 hp
  | false =>
    subst haS
    simp only [Bool.false_and, Bool.false_eq_true, if_false] at hmem ⊢
    refine ⟨trivial, ?_⟩
    set st2 : SysState :=
      { st1 with
        db := (addCreatorContract st1.db now tx.fromAddr symbol md.name
          (md.tokenAddress.orElse fun _ => tx.tokenAddress) (some tx.hash)).1 } with hst2
    set cc : Nat :=
      (match getCreator st2.db tx.fromAddr with
        | some c => c.contracts_created
        | none => 0) with hcc
    have hrow2 : findTxRow st2.db tx.hash = some r0 := by
      rw [hst2]
      dsimp only
      rw [findTxRow_addCreatorContract]
      exact hrow
    unfold enrichAndDispatch at hmem ⊢
    by_cases hgt : cc > 1
    · rw [if_pos hgt] at hmem ⊢
      cases hpr : env.profileFor tx.fromAddr with
      | none =>
        rw [hpr] at hmem
        simp at hmem
      | some p =>
        rw [hpr] at hmem
        dsimp only at hmem ⊢
        cases hun : p.username with
        | none =>
          rw [hun] at hmem
          simp at hmem
        | some un =>
          rw [hun] at hmem
          dsimp only at hmem ⊢
          by_cases hue : un ≠ ""
          · rw [if_pos hue] at hmem ⊢
            dsimp only at hmem ⊢
            have hmemA : Effect.arenaPost u s ∈
                (dispatchArena env now st2 key (some r0.id) (postTypeOf p) un symbol false).2 := by
              rcases List.mem_cons.mp hmem with h | h
              · exact absurd h (by simp)
              · rcases List.mem_append.mp h with h | h
                · exact h
                · rcases dispatchDiscord_effects env now
                      (dispatchArena env now st2 key (some r0.id) (postTypeOf p) un symbol false).1
                      key (some r0.id) (postTypeOf p) un symbol dSent with he | he
                  · rw [he] at h
                    exact absurd h (by simp)
                  · rw [he] at h
                    simp at h
            obtain ⟨-, hpt, -, hseq⟩ :=
              dispatchArena_mem env now st2 key (some r0.id) (postTypeOf p) un symbol u s false hmemA
            cases hok : env.arenaPostOk with
            | true =>
              rw [dispatchArena_success_state env now st2 key r0.id (postTypeOf p) un symbol hok hpt]
              dsimp only
              refine ⟨hseq, ?_, ?_, ?_⟩
              · rw [countArena, List.filter_cons_of_neg (by simp [isArenaPostE]),
                  List.filter_append, List.filter_cons_of_pos (by simp [isArenaPostE])]
                have hd0 := countArena_dispatchDiscord env now
                  ({ st2 with
                      arenaPostCache := markPostAsSent st2.arenaPostCache key
                        (postTypeLabel (postTypeOf p)) now,
                      db := setArenaFlag st2.db r0.id })
                  key (some r0.id) (postTypeOf p) un symbol dSent
                simp only [countArena] at hd0
                simp [hd0]
              · intro _
                constructor
                · refine ⟨⟨true, now, postTypeLabel (postTypeOf p)⟩, ?_, rfl⟩
                  rw [dispatchDiscord_arenaCache]
                  exact cacheLookup_markPostAsSent_self _ _ _ _
                · obtain ⟨f, hf, hfind⟩ := dispatchDiscord_findTxRow env now
                    ({ st2 with
                        arenaPostCache := markPostAsSent st2.arenaPostCache key
                          (postTypeLabel (postTypeOf p)) now,
                        db := setArenaFlag st2.db r0.id })
                    key (some r0.id) (postTypeOf p) un symbol dSent
                  rw [hfind tx.hash]
                  have hset : findTxRow (setArenaFlag st2.db r0.id) tx.hash =
                      some { r0 with posted_to_arena := true } := by
                    rw [findTxRow_setArenaFlag, hrow2]
                    simp
                  rw [show ({ st2 with
                      arenaPostCache := markPostAsSent st2.arenaPostCache key
                        (postTypeLabel (postTypeOf p)) now,
                      db := setArenaFlag st2.db r0.id } : SysState).db =
                    setArenaFlag st2.db r0.id from rfl, hset]
                  refine ⟨f { r0 with posted_to_arena := true }, rfl, ?_⟩
                  rw [(hf _).2.2]
              · intro habs
                simp [hok] at habs
            | false =>
              rw [dispatchArena_failure_state env now st2 key (some r0.id) (postTypeOf p)
                un symbol hok hpt]
              dsimp only
              refine ⟨hseq, ?_, ?_, ?_⟩
              · rw [countArena, List.filter_cons_of_neg (by simp [isArenaPostE]),
                  List.filter_append, List.filter_cons_of_pos (by simp [isArenaPostE])]
                have hd0 := countArena_dispatchDiscord env now st2
                  key (some r0.id) (postTypeOf p) un symbol dSent
                simp only [countArena] at hd0
                simp [hd0]
              · intro habs
                simp [hok] at habs
              · intro _
                obtain ⟨f, hf, hfind⟩ := dispatchDiscord_findTxRow env now st2
                  key (some r0.id) (postTypeOf p) un symbol dSent
                constructor
                · rw [dispatchDiscord_arenaCache]
                · intro r' hr'
                  rw [hfind tx.hash, hrow2] at hr'
                  have hr'' : r' = f r0 := by
                    simpa using hr'.symm
                  rw [hr'', (hf _).2.2]
          · rw [if_neg hue] at hmem
            simp at hmem
    · rw [if_neg hgt] at hmem
      simp at hmem

/-- Discord-channel behaviour of the post-lookup phase when a Discord post is
attempted: the persisted flag said not-sent, exactly one Discord call is
made, and on success both the cache entry and the persisted flag end up
marked while on failure both are left exactly as they were. -/
theorem afterLookup_discord (env : Env) (now : Nat) (st1 : SysState) (key : PostCacheKey)
    (aSent dSent : Bool) (tx : ProcessTx) (md : TokenMeta) (symbol : String) (r0 : TxRow)
    (hrow : findTxRow st1.db tx.hash = some r0) (u s : String)
    (hmem : Effect.discordPost u s ∈
      (processAfterLookup env now st1 key (some r0.id) aSent dSent tx md symbol).2.1) :
    dSent = false ∧
    s = symbol ∧
    countDiscord (processAfterLookup env now st1 key (some r0.id) aSent dSent tx md symbol).2.1 = 1 ∧
    (env.discordPostOk = true →
      (∃ e, cacheLookup
          (processAfterLookup env now st1 key (some r0.id) aSent dSent tx md symbol).1.discordPostCache
          key = some e ∧ e.posted = true) ∧
      (∃ r', findTxRow
          (processAfterLookup env now st1 key (some r0.id) aSent dSent tx md symbol).1.db
          tx.hash = some r' ∧ r'.posted_to_discord = true)) ∧
    (env.discordPostOk = false →
      (processAfterLookup env now st1 key (some r0.id) aSent dSent tx md symbol).1.discordPostCache =
        st1.discordPostCache ∧
      (∀ r', findTxRow
          (processAfterLookup env now st1 key (some r0.id) aSent dSent tx md symbol).1.db
          tx.hash = some r' → r'.posted_to_discord = r0.posted_to_discord)) := by
  unfold processAfterLookup at hmem ⊢
  cases hdS : dSent with
  | true =>
    subst hdS
    exfalso
    cases haS : aSent with
    | true =>
      subst haS
      simp at hmem
    | false =>
      subst haS
      simp only [Bool.false_and, Bool.false_eq_true, if_false] at hmem
      have hp := countDiscord_pos_of_mem u s _ hmem
      rw [enrich_countDiscord_sent] at hp
      exact Nat.lt_irrefl 0 hp
  | false =>
    subst hdS
    simp only [Bool.and_false, Bool.false_eq_true, if_false] at hmem ⊢
    refine ⟨trivial, ?_⟩
    set st2 : SysState :=
      { st1 with
        db := (addCreatorContract st1.db now tx.fromAddr symbol md.name
          (md.tokenAddress.orElse fun _ => tx.tokenAddress) (some tx.hash)).1 } with hst2
    set cc : Nat :=
      (match getCreator st2.db tx.fromAddr with
        | some c => c.contracts_created
        | none => 0) with hcc
    have hrow2 : findTxRow st2.db tx.hash = some r0 := by
      rw [hst2]
      dsimp only
      rw [findTxRow_addCreatorContract]
      exact hrow
    unfold enrichAndDispatch at hmem ⊢
    by_cases hgt : cc > 1
    · rw [if_pos hgt] at hmem ⊢
      cases hpr : env.profileFor tx.fromAddr with
      | none =>
        rw [hpr] at hmem
        simp at hmem
      | some p =>
        rw [hpr] at hmem
        dsimp only at hmem ⊢
        cases hun : p.username with
        | none =>
          rw [hun] at hmem
          simp at hmem
        | some un =>
          rw [hun] at hmem
          dsimp only at hmem ⊢
          by_cases hue : un ≠ ""
          · rw [if_pos hue] at hmem ⊢
            dsimp only at hmem ⊢
            set st3 : SysState :=
              (dispatchArena env now st2 key (some r0.id) (postTypeOf p) un symbol aSent).1 with hst3
            have hmemD : Effect.discordPost u s ∈
                (dispatchDiscord env now st3 key (some r0.id) (postTypeOf p) un symbol false).2 := by
              rcases List.mem_cons.mp hmem with h | h
              · exact absurd h (by simp)
              · rcases List.mem_append.mp h with h | h
                · rcases dispatchArena_effects env now st2 key (some r0.id) (postTypeOf p)
                      un symbol aSent with he | he
                  · rw [he] at h
                    exact absurd h (by simp)
                  · rw [he] at h
                    simp at h
                · exact h
            obtain ⟨-, -, hseq⟩ :=
              dispatchDiscord_mem env now st3 key (some r0.id) (postTypeOf p) un symbol u s
                false hmemD
            obtain ⟨fA, hfA, hfindA⟩ := dispatchArena_findTxRow env now st2 key (some r0.id)
              (postTypeOf p) un symbol aSent
            have hrow3 : findTxRow st3.db tx.hash = some (fA r0) := by
              rw [hst3, hfindA tx.hash, hrow2]
              rfl
            cases hok : env.discordPostOk with
            | true =>
              rw [dispatchDiscord_success_state env now st3 key r0.id (postTypeOf p) un symbol hok]
              dsimp only
              refine ⟨hseq, ?_, ?_, ?_⟩
              · rw [countDiscord, List.filter_cons_of_neg (by simp [isDiscordPostE]),
                  List.filter_append, List.filter_cons_of_pos (by simp [isDiscordPostE])]
                have hd0 := countDiscord_dispatchArena env now st2
                  key (some r0.id) (postTypeOf p) un symbol aSent
                simp only [countDiscord] at hd0
                simp [hd0]
              · intro _
                constructor
                · refine ⟨⟨true, now, postTypeLabel (postTypeOf p)⟩, ?_, rfl⟩
                  exact cacheLookup_markPostAsSent_self _ _ _ _
                · rw [findTxRow_setDiscordFlag, hrow3]
                  refine ⟨{ fA r0 with posted_to_discord := true }, ?_, rfl⟩
                  simp [(hfA r0).1]
              · intro habs
                simp [hok] at habs
            | false =>
              rw [dispatchDiscord_failure_state env now st3 key (some r0.id) (postTypeOf p)
                un symbol hok]
              dsimp only
              refine ⟨hseq, ?_, ?_, ?_⟩
              · rw [countDiscord, List.filter_cons_of_neg (by simp [isDiscordPostE]),
                  List.filter_append, List.filter_cons_of_pos (by simp [isDiscordPostE])]
                have hd0 := countDiscord_dispatchArena env now st2
                  key (some r0.id) (postTypeOf p) un symbol aSent
                simp only [countDiscord] at hd0
                simp [hd0]
              · intro habs
                simp [hok] at habs
              · intro _
                constructor
                · rw [hst3, dispatchArena_discordCache]
                · intro r' hr'
                  rw [hrow3] at hr'
                  have hr'' : r' = fA r0 := by
                    simpa using hr'.symm
                  rw [hr'', (hfA _).2.2]
          · rw [if_neg hue] at hmem
            simp at hmem
    · rw [if_neg hgt] at hmem
      simp at hmem

theorem processTokenCreation_eq (env : Env) (now : Nat) (st : SysState) (tx : ProcessTx)
    (md : TokenMeta) (symbol : String)
    (htc : tx.isTokenCreation = true) (hmd : tx.tokenMetadata = some md)
    (hsym : md.symbol = some symbol) :
    processTokenCreation env now st tx =
      processAfterLookup env now
        (lookupPostStatus now st (createArenaPostCacheKey tx.hash tx.fromAddr symbol) tx.hash).1
        (createArenaPostCacheKey tx.hash tx.fromAddr symbol)
        (lookupPostStatus now st (createArenaPostCacheKey tx.hash tx.fromAddr symbol) tx.hash).2.1
        (lookupPostStatus now st (createArenaPostCacheKey tx.hash tx.fromAddr symbol) tx.hash).2.2.1
        (lookupPostStatus now st (createArenaPostCacheKey tx.hash tx.fromAddr symbol) tx.hash).2.2.2
        tx md symbol := by
  unfold processTokenCreation
  rw [htc, if_neg (by simp), hmd]
  dsimp only
  rw [hsym]

theorem lookupPostStatus_flags (now : Nat) (st : SysState) (key : PostCacheKey)
    (hash : String) (row : TxRow) (h : findTxRow st.db hash = some row) :
    (lookupPostStatus now st key hash).2.1 = some row.id ∧
    (lookupPostStatus now st key hash).2.2.1 = row.posted_to_arena ∧
    (lookupPostStatus now st key hash).2.2.2 = row.posted_to_discord := by
  unfold lookupPostStatus
  rw [h]
  exact ⟨rfl, rfl, rfl⟩

theorem afterLookup_countArena_sent (env : Env) (now : Nat) (st1 : SysState)
    (key : PostCacheKey) (tid : Option Nat) (dSent : Bool) (tx : ProcessTx) (md : TokenMeta)
    (symbol : String) :
    countArena (processAfterLookup env now st1 key tid true dSent tx md symbol).2.1 = 0 := by
  unfold processAfterLookup
  cases hdS : dSent with
  | true =>
    simp [countArena]
  | false =>
    simp only [Bool.and_false, Bool.false_eq_true, if_false]
    exact enrich_countArena_sent env now _ key tid false tx.fromAddr symbol _

theorem afterLookup_countDiscord_sent (env : Env) (now : Nat) (st1 : SysState)
    (key : PostCacheKey) (tid : Option Nat) (aSent : Bool) (tx : ProcessTx) (md : TokenMeta)
    (symbol : String) :
    countDiscord (processAfterLookup env now st1 key tid aSent true tx md symbol).2.1 = 0 := by
  unfold processAfterLookup
  cases haS : aSent with
  | true =>
    simp [countDiscord]
  | false =>
    simp only [Bool.false_and, Bool.false_eq_true, if_false]
    exact enrich_countDiscord_sent env now _ key tid false tx.fromAddr symbol _

/-! ### C1: idempotent dispatch -/

/-- C1: for a fixed idempotency key, when `processTokenCreation` runs twice
and the first run's post to a channel succeeded (the per-channel marking,
modelled as reliable persistence, completes), exactly one outbound call is
made to that channel across both runs; a successful post marks both the
in-process cache entry and the persisted flag for that channel, and a failed
post leaves both unmarked so a later retriggering may retry. -/
theorem C1_dispatch_idempotent :
    ∀ (env1 env2 : Env) (now1 now2 : Nat) (st0 : SysState) (tx : ProcessTx),
      (∀ u s, Effect.arenaPost u s ∈ (processTokenCreation env1 now1 st0 tx).2.1 →
        (env1.arenaPostOk = true →
          countArena ((processTokenCreation env1 now1 st0 tx).2.1 ++
            (processTokenCreation env2 now2 (processTokenCreation env1 now1 st0 tx).1 tx).2.1) = 1 ∧
          (∃ e, cacheLookup (processTokenCreation env1 now1 st0 tx).1.arenaPostCache
            (createArenaPostCacheKey tx.hash tx.fromAddr s) = some e ∧ e.posted = true) ∧
          (∃ r, findTxRow (processTokenCreation env1 now1 st0 tx).1.db tx.hash = some r ∧
            r.posted_to_arena = true)) ∧
        (env1.arenaPostOk = false →
          (processTokenCreation env1 now1 st0 tx).1.arenaPostCache = st0.arenaPostCache ∧
          (∀ r, findTxRow (processTokenCreation env1 now1 st0 tx).1.db tx.hash = some r →
            r.posted_to_arena = false))) ∧
      (∀ u s, Effect.discordPost u s ∈ (processTokenCreation env1 now1 st0 tx).2.1 →
        (env1.discordPostOk = true →
          countDiscord ((processTokenCreation env1 now1 st0 tx).2.1 ++
            (processTokenCreation env2 now2 (processTokenCreation env1 now1 st0 tx).1 tx).2.1) = 1 ∧
          (∃ e, cacheLookup (processTokenCreation env1 now1 st0 tx).1.discordPostCache
            (createDiscordPostCacheKey tx.hash tx.fromAddr s) = some e ∧ e.posted = true) ∧
          (∃ r, findTxRow (processTokenCreation env1 now1 st0 tx).1.db tx.hash = some r ∧
            r.posted_to_discord = true)) ∧
        (env1.discordPostOk = false →
          (processTokenCreation env1 now1 st0 tx).1.discordPostCache = st0.discordPostCache ∧
          (∀ r, findTxRow (processTokenCreation env1 now1 st0 tx).1.db tx.hash = some r →
            r.posted_to_discord = false))) := by
  intro env1 env2 now1 now2 st0 tx
  constructor
  · intro u s hmem
    by_cases htcf : tx.isTokenCreation = false
    · rw [processTokenCreation, if_pos htcf] at hmem
      simp at hmem
    · have htc : tx.isTokenCreation = true := by
        revert htcf
        cases tx.isTokenCreation <;> simp
      cases hmd : tx.tokenMetadata with
      | none => simp [processTokenCreation, htc, hmd] at hmem
      | some md =>
        cases hsym : md.symbol with
        | none => simp [processTokenCreation, htc, hmd, hsym] at hmem
        | some symbol =>
          have heq := processTokenCreation_eq env1 now1 st0 tx md symbol htc hmd hsym
          obtain ⟨r0, hr0find, hr0tid, hr0a, hr0d⟩ := lookupPostStatus_spec now1 st0
            (createArenaPostCacheKey tx.hash tx.fromAddr symbol) tx.hash
          rw [hr0tid, hr0a, hr0d] at heq
          rw [heq] at hmem
          obtain ⟨haS, hseq, hcount1, hsucc, hfail⟩ :=
            afterLookup_arena env1 now1
              (lookupPostStatus now1 st0 (createArenaPostCacheKey tx.hash tx.fromAddr symbol)
                tx.hash).1
              (createArenaPostCacheKey tx.hash tx.fromAddr symbol)
              r0.posted_to_arena r0.posted_to_discord tx md symbol r0 hr0find u s hmem
          subst hseq
          rw [heq]
          constructor
          · intro hok
            obtain ⟨hcache, hflag⟩ := hsucc hok
            obtain ⟨r', hr'find, hr'a⟩ := hflag
            refine ⟨?_, hcache, ⟨r', hr'find, hr'a⟩⟩
            rw [countArena_append, hcount1]
            rw [processTokenCreation_eq env2 now2 _ tx md s htc hmd hsym]
            rw [(lookupPostStatus_flags now2 _
              (createArenaPostCacheKey tx.hash tx.fromAddr s) tx.hash r' hr'find).2.1,
              hr'a]
            rw [afterLookup_countArena_sent]
          · intro hok
            obtain ⟨hcache, hflag⟩ := hfail hok
            constructor
            · rw [hcache]
              exact lookupPostStatus_arenaCache_of_not_sent now1 st0
                (createArenaPostCacheKey tx.hash tx.fromAddr s) tx.hash
                (by rw [hr0a, haS])
            · intro r hr
              rw [hflag r hr, haS]
  · intro u s hmem
    by_cases htcf : tx.isTokenCreation = false
    · rw [processTokenCreation, if_pos htcf] at hmem
      simp at hmem
    · have htc : tx.isTokenCreation = true := by
        revert htcf
        cases tx.isTokenCreation <;> simp
      cases hmd : tx.tokenMetadata with
      | none => simp [processTokenCreation, htc, hmd] at hmem
      | some md =>
        cases hsym : md.symbol with
        | none => simp [processTokenCreation, htc, hmd, hsym] at hmem
        | some symbol =>
          have heq := processTokenCreation_eq env1 now1 st0 tx md symbol htc hmd hsym
          obtain ⟨r0, hr0find, hr0tid, hr0a, hr0d⟩ := lookupPostStatus_spec now1 st0
            (createArenaPostCacheKey tx.hash tx.fromAddr symbol) tx.hash
          rw [hr0tid, hr0a, hr0d] at heq
          rw [heq] at hmem
          obtain ⟨hdS, hseq, hcount1, hsucc, hfail⟩ :=
            afterLookup_discord env1 now1
              (lookupPostStatus now1 st0 (createArenaPostCacheKey tx.hash tx.fromAddr symbol)
                tx.hash).1
              (createArenaPostCacheKey tx.hash tx.fromAddr symbol)
              r0.posted_to_arena r0.posted_to_discord tx md symbol r0 hr0find u s hmem
          subst hseq
          rw [heq]
          have hkeyeq : createDiscordPostCacheKey tx.hash tx.fromAddr s =
              createArenaPostCacheKey tx.hash tx.fromAddr s := rfl
          constructor
          · intro hok
            obtain ⟨hcache, hflag⟩ := hsucc hok
            obtain ⟨r', hr'find, hr'd⟩ := hflag
            refine ⟨?_, by rw [hkeyeq]; exact hcache, ⟨r', hr'find, hr'd⟩⟩
            rw [countDiscord_append, hcount1]
            rw [processTokenCreation_eq env2 now2 _ tx md s htc hmd hsym]
            rw [(lookupPostStatus_flags now2 _
              (createArenaPostCacheKey tx.hash tx.fromAddr s) tx.hash r' hr'find).2.2,
              hr'd]
            rw [afterLookup_countDiscord_sent]
          · intro hok
            obtain ⟨hcache, hflag⟩ := hfail hok
            constructor
            · rw [hcache]
              exact lookupPostStatus_discordCache_of_not_sent now1 st0
                (createArenaPostCacheKey tx.hash tx.fromAddr s) tx.hash
                (by rw [hr0d, hdS])
            · intro r hr
              rw [hflag r hr, hdS]

/-- Witness for C1: in the witness scenario both channels receive exactly
one outbound call across two invocations of `processTokenCreation`. -/
theorem C1_dispatch_idempotent_witness :
    countArena ((processTokenCreation witEnv 0 witSt witTx).2.1 ++
      (processTokenCreation witEnv 1 (processTokenCreation witEnv 0 witSt witTx).1 witTx).2.1) = 1 ∧
    countDiscord ((processTokenCreation witEnv 0 witSt witTx).2.1 ++
      (processTokenCreation witEnv 1 (processTokenCreation witEnv 0 witSt witTx).1 witTx).2.1) = 1 :=
  ⟨(((C1_dispatch_idempotent witEnv witEnv 0 1 witSt witTx).1 "alice" "TKN" (by decide)).1 rfl).1,
   (((C1_dispatch_idempotent witEnv witEnv 0 1 witSt witTx).2 "alice" "TKN" (by decide)).1 rfl).1⟩

/-! ### C4: first-ever token never triggers enrichment or dispatch -/

theorem getCreator_eq_creators (db db' : DB) (h : db.creators = db'.creators) (w : String) :
    getCreator db w = getCreator db' w := by
  unfold getCreator
  rw [h]

theorem getCreator_addCreatorContract (db : DB) (now : Nat) (w s : String)
    (n a h : Option String) :
    ∃ c, getCreator (addCreatorContract db now w s n a h).1 w = some c ∧
      ∃ t ∈ c.contract_tickers, t.symbol = s := by
  cases hg : getCreator db w with
  | none =>
    refine ⟨⟨db.nextId, w, 1, [⟨s, n, a, h, now⟩]⟩, ?_, ⟨s, n, a, h, now⟩, by simp, rfl⟩
    unfold addCreatorContract
    rw [hg]
    unfold getCreator at hg ⊢
    dsimp only
    rw [find?_append_of_none _ _ _ hg]
    simp
  | some c =>
    refine ⟨_, addCreatorContract_existing db now w s n a h c hg, ?_⟩
    by_cases hex : c.contract_tickers.any (fun t => t.symbol = s) = true
    · simp only [hex, if_true]
      simp only [List.any_eq_true, decide_eq_true_eq] at hex
      exact hex
    · simp only [hex, if_false]
      exact ⟨⟨s, n, a, h, now⟩, by simp, rfl⟩

theorem creators_save (db : DB) (hash : String) :
    (saveContractTransaction db hash).1.creators = db.creators := by
  unfold saveContractTransaction
  cases findTxRow db hash <;> rfl

theorem addCreatorContract_new (db : DB) (now : Nat) (w s : String) (n a h : Option String)
    (hg : getCreator db w = none) :
    getCreator (addCreatorContract db now w s n a h).1 w =
      some ⟨db.nextId, w, 1, [⟨s, n, a, h, now⟩]⟩ ∧
    (addCreatorContract db now w s n a h).2 = db.nextId := by
  unfold addCreatorContract
  rw [hg]
  refine ⟨?_, rfl⟩
  unfold getCreator at hg ⊢
  dsimp only
  rw [find?_append_of_none _ _ _ hg]
  simp

theorem lookupPostStatus_none (now : Nat) (st : SysState) (key : PostCacheKey) (hash : String)
    (h : findTxRow st.db hash = none) :
    lookupPostStatus now st key hash =
      ({ st with db := (saveContractTransaction st.db hash).1 },
       some (saveContractTransaction st.db hash).2, false, false) := by
  unfold lookupPostStatus
  rw [h]

theorem lookupPostStatus_found_clean (now : Nat) (st : SysState) (key : PostCacheKey)
    (hash : String) (row : TxRow) (h : findTxRow st.db hash = some row)
    (ha : row.posted_to_arena = false) (hd : row.posted_to_discord = false) :
    lookupPostStatus now st key hash = (st, some row.id, false, false) := by
  unfold lookupPostStatus
  rw [h]
  dsimp only
  rw [ha, hd]
  rfl

theorem afterLookup_clean_existing (env : Env) (now : Nat) (st1 : SysState) (key : PostCacheKey)
    (rid : Option Nat) (tx : ProcessTx) (md : TokenMeta) (symbol : String) (c1 : CreatorRow)
    (hg : getCreator st1.db tx.fromAddr = some c1) :
    processAfterLookup env now st1 key rid false false tx md symbol =
      ((enrichAndDispatch env now
          { st1 with db := (addCreatorContract st1.db now tx.fromAddr symbol md.name
              (md.tokenAddress.orElse fun _ => tx.tokenAddress) (some tx.hash)).1 }
          key rid false false tx.fromAddr symbol (c1.contracts_created + 1)).1,
       (enrichAndDispatch env now
          { st1 with db := (addCreatorContract st1.db now tx.fromAddr symbol md.name
              (md.tokenAddress.orElse fun _ => tx.tokenAddress) (some tx.hash)).1 }
          key rid false false tx.fromAddr symbol (c1.contracts_created + 1)).2,
       some (addCreatorContract st1.db now tx.fromAddr symbol md.name
          (md.tokenAddress.orElse fun _ => tx.tokenAddress) (some tx.hash)).2) := by
  unfold processAfterLookup
  rw [if_neg (by simp)]
  dsimp only
  rw [addCreatorContract_existing st1.db now tx.fromAddr symbol md.name
    (md.tokenAddress.orElse fun _ => tx.tokenAddress) (some tx.hash) c1 hg]

theorem processTokenCreation_first (env : Env) (now : Nat) (st0 : SysState) (tx : ProcessTx)
    (md : TokenMeta) (symbol : String)
    (htc : tx.isTokenCreation = true) (hmd : tx.tokenMetadata = some md)
    (hsym : md.symbol = some symbol)
    (hg0 : getCreator st0.db tx.fromAddr = none)
    (hr0 : findTxRow st0.db tx.hash = none) :
    processTokenCreation env now st0 tx =
      ({ st0 with db :=
          (addCreatorContract (saveContractTransaction st0.db tx.hash).1 now tx.fromAddr symbol
            md.name (md.tokenAddress.orElse fun _ => tx.tokenAddress) (some tx.hash)).1 },
       [],
       some (addCreatorContract (saveContractTransaction st0.db tx.hash).1 now tx.fromAddr symbol
          md.name (md.tokenAddress.orElse fun _ => tx.tokenAddress) (some tx.hash)).2) := by
  have hgS : getCreator (saveContractTransaction st0.db tx.hash).1 tx.fromAddr = none := by
    rw [getCreator_eq_creators (saveContractTransaction st0.db tx.hash).1 st0.db
      (creators_save st0.db tx.hash) tx.fromAddr]
    exact hg0
  obtain ⟨hnew, hid⟩ := addCreatorContract_new (saveContractTransaction st0.db tx.hash).1 now
    tx.fromAddr symbol md.name (md.tokenAddress.orElse fun _ => tx.tokenAddress) (some tx.hash) hgS
  rw [processTokenCreation_eq env now st0 tx md symbol htc hmd hsym,
    lookupPostStatus_none now st0 (createArenaPostCacheKey tx.hash tx.fromAddr symbol) tx.hash hr0]
  dsimp only
  unfold processAfterLookup
  rw [if_neg (by simp)]
  dsimp only
  rw [hnew]
  dsimp only
  rw [enrich_not_multi env now _ (createArenaPostCacheKey tx.hash tx.fromAddr symbol)
    (some (saveContractTransaction st0.db tx.hash).2) false false tx.fromAddr symbol 1 (by omega)]

theorem dispatchArena_attempt (env : Env) (now : Nat) (st : SysState) (key : PostCacheKey)
    (tid : Option Nat) (pt : PostType) (u s : String)
    (hq : pt = PostType.champion ∨ pt = PostType.heavyHitter) :
    (dispatchArena env now st key tid pt u s false).2 = [Effect.arenaPost u s] := by
  unfold dispatchArena
  rw [if_pos ⟨hq, rfl⟩]
  cases henv : env.arenaPostOk <;> rfl

theorem enrich_arena_attempt (env : Env) (now : Nat) (st : SysState) (key : PostCacheKey)
    (tid : Option Nat) (dSent : Bool) (f symbol : String) (cc : Nat)
    (p : ArenaUserProfile) (u : String)
    (hcc : cc > 1) (hp : env.profileFor f = some p) (hu : p.username = some u)
    (hne : u ≠ "")
    (hq : postTypeOf p = PostType.champion ∨ postTypeOf p = PostType.heavyHitter) :
    Effect.arenaPost u symbol ∈
      (enrichAndDispatch env now st key tid false dSent f symbol cc).2 := by
  unfold enrichAndDispatch
  rw [if_pos hcc, hp]
  dsimp only
  rw [hu]
  dsimp only
  rw [if_pos hne]
  dsimp only
  rw [dispatchArena_attempt env now st key tid (postTypeOf p) u symbol hq]
  simp

/-- C4 counterexample: for a brand-new creator's first-ever token the
monitor pipeline still performs profile resolution and attempts both
notification dispatches: the single processing run records
contracts_created = 1 and makes no outbound call, but the monitor's
unconditional `fetchCreatorProfile` (src/lib/blockchain.ts line 383)
resolves the creator profile and its re-notification re-runs processing,
which raises the count to 2, fetches the profile again, and posts to Arena
and Discord — refuting the claim that the pipeline never resolves a profile
and never attempts a dispatch for such an event. -/
theorem C4_monitor_counterexample :
    ((getCreator (processTokenCreation witEnv 0 ⟨⟨0, [], []⟩, [], []⟩ witTx).1.db "0xW").map
        CreatorRow.contracts_created = some 1) ∧
    (monitorProcessEvent witEnv 0 ⟨⟨0, [], []⟩, [], []⟩ witTx).2 =
      [Effect.fetchProfile "0xW", Effect.fetchProfile "0xW",
       Effect.arenaPost "alice" "TKN", Effect.discordPost "alice" "TKN"] := by
  decide

/-- C4 (amended): for a first-ever token (fresh creator, fresh transaction
hash), a single `processTokenCreation` run makes no outbound call — the
contractsCreated > 1 gate closes at count 1 — while the creation is
persisted and the creator id returned; but the real-time monitor pipeline
(blockchain.ts lines 378-392) nevertheless resolves the creator profile
unconditionally and re-runs processing on its resolution, which raises
contracts_created to 2, and a qualifying resolved profile then leads to an
Arena dispatch attempt for the creator's first-ever token. -/
theorem C4_monitor_refetch :
    ∀ (env : Env) (now : Nat) (st0 : SysState) (tx : ProcessTx) (md : TokenMeta)
      (symbol : String),
      tx.isTokenCreation = true → tx.tokenMetadata = some md → md.symbol = some symbol →
      getCreator st0.db tx.fromAddr = none →
      findTxRow st0.db tx.hash = none →
      (processTokenCreation env now st0 tx).2.1 = [] ∧
      (processTokenCreation env now st0 tx).2.2 ≠ none ∧
      (∃ c, getCreator (processTokenCreation env now st0 tx).1.db tx.fromAddr = some c ∧
        c.contracts_created = 1) ∧
      Effect.fetchProfile tx.fromAddr ∈ (monitorProcessEvent env now st0 tx).2 ∧
      (∃ c, getCreator (monitorProcessEvent env now st0 tx).1.db tx.fromAddr = some c ∧
        c.contracts_created = 2) ∧
      (∀ (p : ArenaUserProfile) (u : String),
        env.profileFor tx.fromAddr = some p → p.username = some u → u ≠ "" →
        (postTypeOf p = PostType.champion ∨ postTypeOf p = PostType.heavyHitter) →
        Effect.arenaPost u symbol ∈ (monitorProcessEvent env now st0 tx).2) := by
  intro env now st0 tx md symbol htc hmd hsym hg0 hr0
  have h1 := processTokenCreation_first env now st0 tx md symbol htc hmd hsym hg0 hr0
  have hgS : getCreator (saveContractTransaction st0.db tx.hash).1 tx.fromAddr = none := by
    rw [getCreator_eq_creators (saveContractTransaction st0.db tx.hash).1 st0.db
      (creators_save st0.db tx.hash) tx.fromAddr]
    exact hg0
  obtain ⟨hnew, hid⟩ := addCreatorContract_new (saveContractTransaction st0.db tx.hash).1 now
    tx.fromAddr symbol md.name (md.tokenAddress.orElse fun _ => tx.tokenAddress) (some tx.hash) hgS
  have hsave := findTxRow_save_none st0.db tx.hash hr0
  have hrow1 : findTxRow (addCreatorContract (saveContractTransaction st0.db tx.hash).1 now
      tx.fromAddr symbol md.name (md.tokenAddress.orElse fun _ => tx.tokenAddress)
      (some tx.hash)).1 tx.hash = some ⟨st0.db.nextId, tx.hash, false, false⟩ := by
    rw [findTxRow_addCreatorContract]
    exact hsave.1
  have heq2 := processTokenCreation_eq env now
    ({ st0 with db := (addCreatorContract (saveContractTransaction st0.db tx.hash).1 now
        tx.fromAddr symbol md.name (md.tokenAddress.orElse fun _ => tx.tokenAddress)
        (some tx.hash)).1 }) tx md symbol htc hmd hsym
  rw [lookupPostStatus_found_clean now
    ({ st0 with db := (addCreatorContract (saveContractTransaction st0.db tx.hash).1 now
        tx.fromAddr symbol md.name (md.tokenAddress.orElse fun _ => tx.tokenAddress)
        (some tx.hash)).1 }) (createArenaPostCacheKey tx.hash tx.fromAddr symbol) tx.hash
    ⟨st0.db.nextId, tx.hash, false, false⟩ (by exact hrow1) rfl rfl] at heq2
  dsimp only at heq2
  rw [afterLookup_clean_existing env now
    ({ st0 with db := (addCreatorContract (saveContractTransaction st0.db tx.hash).1 now
        tx.fromAddr symbol md.name (md.tokenAddress.orElse fun _ => tx.tokenAddress)
        (some tx.hash)).1 }) (createArenaPostCacheKey tx.hash tx.fromAddr symbol)
    (some st0.db.nextId) tx md symbol
    ⟨(saveContractTransaction st0.db tx.hash).1.nextId, tx.fromAddr, 1,
      [⟨symbol, md.name, md.tokenAddress.orElse fun _ => tx.tokenAddress, some tx.hash, now⟩]⟩
    (by exact hnew)] at heq2
  dsimp only at heq2
  refine ⟨?_, ?_, ?_, ?_, ?_, ?_⟩
  · rw [h1]
  · rw [h1]
    simp
  · rw [h1]
    dsimp only
    exact ⟨_, hnew, rfl⟩
  · unfold monitorProcessEvent
    dsimp only
    simp
  · unfold monitorProcessEvent
    dsimp only
    rw [h1]
    dsimp only
    rw [heq2]
    dsimp only
    have hg2 := addCreatorContract_existing
      (addCreatorContract (saveContractTransaction st0.db tx.hash).1 now tx.fromAddr symbol
        md.name (md.tokenAddress.orElse fun _ => tx.tokenAddress) (some tx.hash)).1
      now tx.fromAddr symbol md.name (md.tokenAddress.orElse fun _ => tx.tokenAddress)
      (some tx.hash) _ hnew
    exact ⟨_, by
      rw [getCreator_eq_creators _ _ (enrich_creators _ _ _ _ _ _ _ _ _ _) tx.fromAddr]
      exact hg2, rfl⟩
  · intro p u hp hu hne hq
    unfold monitorProcessEvent
    dsimp only
    rw [h1]
    dsimp only
    rw [heq2]
    dsimp only
    simp only [List.nil_append, List.mem_append]
    right
    exact enrich_arena_attempt env now _
      (createArenaPostCacheKey tx.hash tx.fromAddr symbol) (some st0.db.nextId) false
      tx.fromAddr symbol (1 + 1) p u (by omega) hp hu hne hq

/-- Witness for C4: a brand-new creator's first token with a heavy-hitter
profile in the environment: the single run dispatches nothing, yet the
monitor pipeline resolves the profile and posts to Arena. -/
theorem C4_monitor_refetch_witness :
    (processTokenCreation witEnv 0 ⟨⟨0, [], []⟩, [], []⟩ witTx).2.1 = [] ∧
    Effect.fetchProfile "0xW" ∈ (monitorProcessEvent witEnv 0 ⟨⟨0, [], []⟩, [], []⟩ witTx).2 ∧
    Effect.arenaPost "alice" "TKN" ∈
      (monitorProcessEvent witEnv 0 ⟨⟨0, [], []⟩, [], []⟩ witTx).2 := by
  have h := C4_monitor_refetch witEnv 0 ⟨⟨0, [], []⟩, [], []⟩ witTx
    ⟨some "Tok", some "TKN", none⟩ "TKN" (by decide) (by decide) (by decide) (by decide)
    (by decide)
  exact ⟨h.1, h.2.2.2.1,
    h.2.2.2.2.2 ⟨some "alice", some 6000, none, none, some false⟩ "alice"
      (by decide) (by decide) (by decide) (by decide)⟩

/-! ### C5: what gates the outbound attempts -/

/-- C5 counterexample: a fresh in-process cache entry says the Arena post was
already sent (`wasArenaPostAlreadySent` would answer true), the persisted
flags say it was not, and the dispatcher still makes the Arena outbound call:
the in-process cache layer is never consulted before posting. -/
theorem C5_cache_not_consulted_counterexample :
    (wasPostAlreadySent [(createArenaPostCacheKey "0xh" "0xW" "TKN",
        ⟨true, 0, "champion"⟩)] (createArenaPostCacheKey "0xh" "0xW" "TKN") 5).1 = true ∧
    findTxRow witSt.db "0xh" = none ∧
    Effect.arenaPost "alice" "TKN" ∈
      (processTokenCreation witEnv 5
        ⟨witSt.db, [(createArenaPostCacheKey "0xh" "0xW" "TKN", ⟨true, 0, "champion"⟩)], []⟩
        witTx).2.1 := by
  refine ⟨by decide, by decide, by decide⟩

theorem dispatchArena_cache_blind (env : Env) (now : Nat) (st st' : SysState)
    (key : PostCacheKey) (tid : Option Nat) (pt : PostType) (u sym : String) (aSent : Bool)
    (h : st.db = st'.db) :
    (dispatchArena env now st key tid pt u sym aSent).2 =
      (dispatchArena env now st' key tid pt u sym aSent).2 ∧
    (dispatchArena env now st key tid pt u sym aSent).1.db =
      (dispatchArena env now st' key tid pt u sym aSent).1.db := by
  unfold dispatchArena
  split_ifs <;> cases tid <;> simp [h]

theorem dispatchDiscord_cache_blind (env : Env) (now : Nat) (st st' : SysState)
    (key : PostCacheKey) (tid : Option Nat) (pt : PostType) (u sym : String) (dSent : Bool)
    (h : st.db = st'.db) :
    (dispatchDiscord env now st key tid pt u sym dSent).2 =
      (dispatchDiscord env now st' key tid pt u sym dSent).2 ∧
    (dispatchDiscord env now st key tid pt u sym dSent).1.db =
      (dispatchDiscord env now st' key tid pt u sym dSent).1.db := by
  unfold dispatchDiscord
  split_ifs <;> cases tid <;> simp [h]

theorem enrich_cache_blind (env : Env) (now : Nat) (st st' : SysState) (key : PostCacheKey)
    (tid : Option Nat) (aSent dSent : Bool) (f s : String) (cc : Nat)
    (h : st.db = st'.db) :
    (enrichAndDispatch env now st key tid aSent dSent f s cc).2 =
      (enrichAndDispatch env now st' key tid aSent dSent f s cc).2 ∧
    (enrichAndDispatch env now st key tid aSent dSent f s cc).1.db =
      (enrichAndDispatch env now st' key tid aSent dSent f s cc).1.db := by
  unfold enrichAndDispatch
  split_ifs with hcc
  · cases hp : env.profileFor f with
    | none => exact ⟨rfl, h⟩
    | some p =>
      dsimp only
      cases hu : p.username with
      | none => exact ⟨rfl, h⟩
      | some un =>
        dsimp only
        by_cases hue : un ≠ ""
        · rw [if_pos hue, if_pos hue]
          dsimp only
          obtain ⟨ha2, ha1⟩ := dispatchArena_cache_blind env now st st' key tid (postTypeOf p)
            un s aSent h
          obtain ⟨hd2, hd1⟩ := dispatchDiscord_cache_blind env now
            (dispatchArena env now st key tid (postTypeOf p) un s aSent).1
            (dispatchArena env now st' key tid (postTypeOf p) un s aSent).1 key tid (postTypeOf p)
            un s dSent ha1
          exact ⟨by rw [ha2, hd2], hd1⟩
        · rw [if_neg hue, if_neg hue]
          exact ⟨rfl, h⟩
  · exact ⟨rfl, h⟩

theorem afterLookup_cache_blind (env : Env) (now : Nat) (st1 st1' : SysState)
    (key : PostCacheKey) (tid : Option Nat) (aSent dSent : Bool) (tx : ProcessTx)
    (md : TokenMeta) (symbol : String) (h : st1.db = st1'.db) :
    (processAfterLookup env now st1 key tid aSent dSent tx md symbol).2 =
      (processAfterLookup env now st1' key tid aSent dSent tx md symbol).2 ∧
    (processAfterLookup env now st1 key tid aSent dSent tx md symbol).1.db =
      (processAfterLookup env now st1' key tid aSent dSent tx md symbol).1.db := by
  unfold processAfterLookup
  rw [h]
  split_ifs
  · exact ⟨rfl, rfl⟩
  · dsimp only
    obtain ⟨he, hd⟩ := enrich_cache_blind env now
      { st1 with
        db := (addCreatorContract st1'.db now tx.fromAddr symbol md.name
          (md.tokenAddress.orElse fun _ => tx.tokenAddress) (some tx.hash)).1 }
      { st1' with
        db := (addCreatorContract st1'.db now tx.fromAddr symbol md.name
          (md.tokenAddress.orElse fun _ => tx.tokenAddress) (some tx.hash)).1 }
      key tid aSent dSent tx.fromAddr symbol
      (match getCreator (addCreatorContract st1'.db now tx.fromAddr symbol md.name
          (md.tokenAddress.orElse fun _ => tx.tokenAddress) (some tx.hash)).1 tx.fromAddr with
        | some c => c.contracts_created
        | none => 0) rfl
    constructor
    · rw [he]
    · exact hd

theorem lookupPostStatus_cache_blind (now : Nat) (db : DB) (c1 c2 c1' c2' : PostCache)
    (key : PostCacheKey) (hash : String) :
    (lookupPostStatus now ⟨db, c1, c2⟩ key hash).2 =
      (lookupPostStatus now ⟨db, c1', c2'⟩ key hash).2 ∧
    (lookupPostStatus now ⟨db, c1, c2⟩ key hash).1.db =
      (lookupPostStatus now ⟨db, c1', c2'⟩ key hash).1.db := by
  unfold lookupPostStatus
  dsimp only
  cases h : findTxRow db hash with
  | some row =>
    constructor
    · rfl
    · dsimp only
      split_ifs <;> rfl
  | none =>
    exact ⟨rfl, rfl⟩

/-- C5 (amended): before attempting a channel the dispatcher consults only
the persisted posted_to_arena / posted_to_discord flags of the transaction
row; a set flag suppresses that channel's outbound call entirely, while the
in-process 24-hour cache is written but never consulted: the outbound calls,
the returned creator id, and the database effects are identical for every
possible content of the two caches. -/
theorem C5_persisted_flags_gate :
    (∀ (env : Env) (now : Nat) (st0 : SysState) (tx : ProcessTx) (row : TxRow),
      findTxRow st0.db tx.hash = some row →
      (row.posted_to_arena = true → countArena (processTokenCreation env now st0 tx).2.1 = 0) ∧
      (row.posted_to_discord = true →
        countDiscord (processTokenCreation env now st0 tx).2.1 = 0)) ∧
    (∀ (env : Env) (now : Nat) (db : DB) (c1 c2 c1' c2' : PostCache) (tx : ProcessTx),
      (processTokenCreation env now ⟨db, c1, c2⟩ tx).2 =
        (processTokenCreation env now ⟨db, c1', c2'⟩ tx).2 ∧
      (processTokenCreation env now ⟨db, c1, c2⟩ tx).1.db =
        (processTokenCreation env now ⟨db, c1', c2'⟩ tx).1.db) := by
  constructor
  · intro env now st0 tx row hrow
    by_cases htcf : tx.isTokenCreation = false
    · rw [processTokenCreation, if_pos htcf]
      exact ⟨fun _ => by simp [countArena], fun _ => by simp [countDiscord]⟩
    · have htc : tx.isTokenCreation = true := by
        revert htcf
        cases tx.isTokenCreation <;> simp
      cases hmd : tx.tokenMetadata with
      | none =>
        constructor <;> intro _ <;> simp [processTokenCreation, htc, hmd, countArena, countDiscord]
      | some md =>
        cases hsym : md.symbol with
        | none =>
          constructor <;> intro _ <;>
            simp [processTokenCreation, htc, hmd, hsym, countArena, countDiscord]
        | some symbol =>
          have heq := processTokenCreation_eq env now st0 tx md symbol htc hmd hsym
          obtain ⟨hfl1, hfl2, hfl3⟩ := lookupPostStatus_flags now st0
            (createArenaPostCacheKey tx.hash tx.fromAddr symbol) tx.hash row hrow
          constructor
          · intro ha
            rw [heq, hfl2, ha, afterLookup_countArena_sent]
          · intro hd
            rw [heq, hfl3, hd, afterLookup_countDiscord_sent]
  · intro env now db c1 c2 c1' c2' tx
    by_cases htcf : tx.isTokenCreation = false
    · rw [processTokenCreation, if_pos htcf, processTokenCreation, if_pos htcf]
      exact ⟨rfl, rfl⟩
    · have htc : tx.isTokenCreation = true := by
        revert htcf
        cases tx.isTokenCreation <;> simp
      cases hmd : tx.tokenMetadata with
      | none =>
        constructor <;> simp [processTokenCreation, htc, hmd]
      | some md =>
        cases hsym : md.symbol with
        | none =>
          constructor <;> simp [processTokenCreation, htc, hmd, hsym]
        | some symbol =>
          have heq := processTokenCreation_eq env now ⟨db, c1, c2⟩ tx md symbol htc hmd hsym
          have heq' := processTokenCreation_eq env now ⟨db, c1', c2'⟩ tx md symbol htc hmd hsym
          obtain ⟨hL2, hLdb⟩ := lookupPostStatus_cache_blind now db c1 c2 c1' c2'
            (createArenaPostCacheKey tx.hash tx.fromAddr symbol) tx.hash
          rw [heq, heq', hL2]
          exact afterLookup_cache_blind env now _ _
            (createArenaPostCacheKey tx.hash tx.fromAddr symbol) _ _ _ tx md symbol hLdb

/-- Witness for C5 (amended): with both persisted flags set on the stored
transaction row, no outbound call is made on either channel; and the
outbound calls of the witness scenario are unchanged when the caches start
full instead of empty. -/
theorem C5_persisted_flags_gate_witness :
    countArena (processTokenCreation witEnv 0
      ⟨⟨10, [⟨1, "0xh", true, true⟩], [⟨0, "0xW", 1, [⟨"OLD", none, none, none, 0⟩]⟩]⟩, [], []⟩
      witTx).2.1 = 0 ∧
    countDiscord (processTokenCreation witEnv 0
      ⟨⟨10, [⟨1, "0xh", true, true⟩], [⟨0, "0xW", 1, [⟨"OLD", none, none, none, 0⟩]⟩]⟩, [], []⟩
      witTx).2.1 = 0 ∧
    (processTokenCreation witEnv 0
      ⟨witSt.db, [(createArenaPostCacheKey "0xh" "0xW" "TKN", ⟨true, 0, "x"⟩)], []⟩ witTx).2 =
      (processTokenCreation witEnv 0 ⟨witSt.db, [], []⟩ witTx).2 :=
  ⟨((C5_persisted_flags_gate.1 witEnv 0
      ⟨⟨10, [⟨1, "0xh", true, true⟩], [⟨0, "0xW", 1, [⟨"OLD", none, none, none, 0⟩]⟩]⟩, [], []⟩
      witTx ⟨1, "0xh", true, true⟩ (by decide)).1 rfl),
   ((C5_persisted_flags_gate.1 witEnv 0
      ⟨⟨10, [⟨1, "0xh", true, true⟩], [⟨0, "0xW", 1, [⟨"OLD", none, none, none, 0⟩]⟩]⟩, [], []⟩
      witTx ⟨1, "0xh", true, true⟩ (by decide)).2 rfl),
   (C5_persisted_flags_gate.2 witEnv 0 witSt.db
      [(createArenaPostCacheKey "0xh" "0xW" "TKN", ⟨true, 0, "x"⟩)] [] [] [] witTx).1⟩
